import Mathlib

/-!
Verification development for the goncalves-backend analytics API.

The definitions below are a shallow embedding of the Python source:
`app/analytics_config.py` (per-dataset field whitelists),
`app/routes/analytics.py` (filter parsing and the five generic
query/aggregation endpoints), `app/routes/upload.py` (spreadsheet import
and batch revert), `app/routes/dashboard.py` (overview KPI deltas),
`app/routes/pedidos.py` (single-order detail lookup) and
`app/routes/auth.py` / `app/auth.py` (bearer-token authentication).

Python machine behaviour is modelled as follows: numbers are `Int`/`Rat`
(spreadsheet cells and filter values never exercise float rounding in the
claims checked here), raised exceptions are an `Except PyErr` channel where
`PyErr.http` is a FastAPI `HTTPException` and `PyErr.valueError` is an
uncaught Python exception that the framework turns into an HTTP 500
response, and `dict` predicates are association lists updated in place.
-/

/-- The three logical datasets; FastAPI's `Literal["fatos","polpa","manteiga"]`
route parameter guarantees every request names one of these. -/
inductive Collection
  | fatos
  | polpa
  | manteiga
deriving DecidableEq, Repr

/-- `FIELDS` from `app/analytics_config.py`: per-dataset whitelist. -/
def FIELDS : Collection → List String
  | .fatos =>
      ["id_pedido", "data_pedido", "tipo_produto", "mes_do_ano",
       "mes_do_ano_num", "canal", "regiao_destino", "cliente_segmento",
       "quantidade_kg", "preco_unitario_brl_kg", "nps_0a10"]
  | .polpa =>
      ["id_pedido", "logistica_brl", "desconto_brl", "lote_id",
       "indice_qualidade_1a10", "perda_processamento_pct"]
  | .manteiga =>
      ["id_pedido", "teor_umidade_pct", "indice_acidez_mgKOH_g",
       "ponto_fusao_c", "indice_oxidacao_1a10", "certificacao_exigida"]

/-- `NUMERIC_FIELDS` from `app/analytics_config.py`. -/
def NUMERIC_FIELDS : Collection → List String
  | .fatos => ["quantidade_kg", "preco_unitario_brl_kg", "nps_0a10", "mes_do_ano_num"]
  | .polpa => ["logistica_brl", "desconto_brl", "indice_qualidade_1a10", "perda_processamento_pct"]
  | .manteiga => ["teor_umidade_pct", "indice_acidez_mgKOH_g", "ponto_fusao_c", "indice_oxidacao_1a10"]

/-- `CATEGORICAL_FIELDS` from `app/analytics_config.py`. -/
def CATEGORICAL_FIELDS : Collection → List String
  | .fatos => ["tipo_produto", "mes_do_ano", "canal", "regiao_destino", "cliente_segmento"]
  | .polpa => ["lote_id"]
  | .manteiga => ["certificacao_exigida"]

/-- An exception escaping a route handler. `http` is `fastapi.HTTPException`
(status surfaced to the caller); `valueError` is any other uncaught Python
exception, which FastAPI reports as HTTP 500. -/
inductive PyErr
  | http (status : Nat) (detail : String)
  | valueError (msg : String)
deriving DecidableEq, Repr

/-- HTTP status the framework sends for an escaped exception. -/
def responseStatus : PyErr → Nat
  | .http s _ => s
  | .valueError _ => 500

/-- Status of a finished request: `none` on success. -/
def statusOf {α : Type} : Except PyErr α → Option Nat
  | .ok _ => none
  | .error e => some (responseStatus e)

/-- A naive `datetime.datetime` value (date plus time of day). -/
structure PyDatetime where
  year : Nat
  month : Nat
  day : Nat
  hour : Nat := 0
  minute : Nat := 0
  second : Nat := 0
deriving DecidableEq, Repr

def isLeapYear (y : Nat) : Bool :=
  y % 4 == 0 && (y % 100 != 0 || y % 400 == 0)

def daysInMonth (y m : Nat) : Nat :=
  if m = 2 then (if isLeapYear y then 29 else 28)
  else if m = 4 ∨ m = 6 ∨ m = 9 ∨ m = 11 then 30
  else 31

def digitVal (c : Char) : Nat := c.toNat - 48

def digit2 (a b : Char) : Option Nat :=
  if a.isDigit && b.isDigit then some (digitVal a * 10 + digitVal b) else none

def digit4 (a b c d : Char) : Option Nat :=
  if a.isDigit && b.isDigit && c.isDigit && d.isDigit then
    some (digitVal a * 1000 + digitVal b * 100 + digitVal c * 10 + digitVal d)
  else none

/-- A trailing UTC-offset token `±HH:MM` (or nothing), as accepted by
`datetime.fromisoformat` after the seconds field. -/
def tzTail : List Char → Bool
  | [] => true
  | [sg, a, b, ':', c, d] =>
      (sg == '+' || sg == '-') && a.isDigit && b.isDigit && c.isDigit && d.isDigit
  | _ => false

/-- Model of Python's `datetime.fromisoformat` on the shapes this API
documents (`"2025-07-01"`, `"2025-07-01T00:00:00"`, optional `±HH:MM`
offset); any other string fails, raising `ValueError` at the call site. -/
def fromisoformat (s : String) : Option PyDatetime :=
  match s.toList with
  | y1 :: y2 :: y3 :: y4 :: '-' :: m1 :: m2 :: '-' :: d1 :: d2 :: rest =>
    match digit4 y1 y2 y3 y4, digit2 m1 m2, digit2 d1 d2 with
    | some y, some mo, some d =>
      if 1 ≤ mo ∧ mo ≤ 12 ∧ 1 ≤ d ∧ d ≤ daysInMonth y mo then
        match rest with
        | [] => some { year := y, month := mo, day := d }
        | sep :: h1 :: h2 :: ':' :: n1 :: n2 :: ':' :: s1 :: s2 :: rest2 =>
          if sep = 'T' ∨ sep = ' ' then
            match digit2 h1 h2, digit2 n1 n2, digit2 s1 s2 with
            | some h, some mi, some se =>
              if h ≤ 23 ∧ mi ≤ 59 ∧ se ≤ 59 ∧ tzTail rest2 then
                some { year := y, month := mo, day := d, hour := h, minute := mi, second := se }
              else none
            | _, _, _ => none
          else none
        | _ => none
      else none
    | _, _, _ => none
  | _ => none

def digitsToNat (l : List Char) : Nat :=
  l.foldl (fun acc c => acc * 10 + digitVal c) 0

/-- Model of Python `int(s)` on a stripped string: optional sign then digits. -/
def pyInt (s : String) : Option Int :=
  let core (l : List Char) : Option Nat :=
    if l ≠ [] ∧ l.all Char.isDigit then some (digitsToNat l) else none
  match s.toList with
  | '+' :: rest => (core rest).map Int.ofNat
  | '-' :: rest => (core rest).map (fun n => -(n : Int))
  | l => (core l).map Int.ofNat

/-- Model of Python `float(s)` on a stripped string: optional sign, digits
around at most one decimal point, at least one digit. -/
def pyFloat (s : String) : Option Rat :=
  let core (l : List Char) : Option Rat :=
    match l.span Char.isDigit with
    | (ip, '.' :: rest) =>
      if rest.all Char.isDigit && (!ip.isEmpty || !rest.isEmpty) then
        some ((digitsToNat ip : Rat) + (digitsToNat rest : Rat) / ((10 : Rat) ^ rest.length))
      else none
    | (ip, []) => if ip.isEmpty then none else some (digitsToNat ip : Rat)
    | _ => none
  match s.toList with
  | '+' :: rest => core rest
  | '-' :: rest => (core rest).map Neg.neg
  | l => core l

/-- Python `str.strip()` on the character list. -/
def trimChars (l : List Char) : List Char :=
  ((l.dropWhile Char.isWhitespace).reverse.dropWhile Char.isWhitespace).reverse

/-- Python `str.strip()`. -/
def pyStrip (s : String) : String := String.mk (trimChars s.toList)

/-- Python `s.split(sep)` for a one-character separator. -/
def splitOnChar (sep : Char) : List Char → List (List Char)
  | [] => [[]]
  | c :: rest =>
    match splitOnChar sep rest with
    | [] => if c = sep then [[], []] else [[c]]
    | h :: t => if c = sep then [] :: h :: t else (c :: h) :: t

def pySplit (s : String) (sep : Char) : List String :=
  (splitOnChar sep s.toList).map String.mk

/-- Python `s.split(sep, 1)`: split at the first occurrence of `sep`;
`none` when `sep` does not occur. -/
def splitFirstChar (sep : Char) : List Char → Option (List Char × List Char)
  | [] => none
  | c :: rest =>
    if c = sep then some ([], rest)
    else (splitFirstChar sep rest).map fun p => (c :: p.1, p.2)

def startsWithChars : List Char → List Char → Bool
  | [], _ => true
  | _ :: _, [] => false
  | a :: needle2, b :: hay2 => a == b && startsWithChars needle2 hay2

def containsSub (needle : List Char) : List Char → Bool
  | [] => needle.isEmpty
  | c :: t => startsWithChars needle (c :: t) || containsSub needle t

/-- `needle` occurs as a substring of `hay` (Python's `in` on strings). -/
def strContains (hay needle : String) : Bool :=
  containsSub needle.toList hay.toList

/-- Python `s.lower()` (ASCII). -/
def strLower (s : String) : String := String.mk (s.toList.map Char.toLower)

/-- Python `s.replace(a, b)` for one-character patterns. -/
def replaceChar (s : String) (a b : Char) : String :=
  String.mk (s.toList.map fun c => if c = a then b else c)

/-- Python `c in s` for a single character. -/
def containsChar (s : String) (c : Char) : Bool := s.toList.contains c

/-- A value stored in a query predicate (`q[k] = v` in `_parse_filters`). -/
inductive FVal
  | vstr (s : String)
  | vint (n : Int)
  | vfloat (q : Rat)
  /-- the `{"$gte": .., "$lte": ..}` sub-document built for `data_pedido` -/
  | vdate (gte lte : Option PyDatetime)
deriving DecidableEq, Repr

/-- The predicate dict built by `_parse_filters`, as an association list in
insertion order. -/
abbrev Query := List (String × FVal)

/-- Python dict assignment `q[k] = v`: overwrite in place, else append. -/
def qset (q : Query) (k : String) (v : FVal) : Query :=
  if q.any (fun p => p.1 == k) then
    q.map (fun p => if p.1 == k then (k, v) else p)
  else q ++ [(k, v)]

/-- Keys of the predicate dict. -/
def qkeys (q : Query) : List String := q.map Prod.fst

/-- `q.get(k)` on the predicate dict. -/
def qget (q : Query) (k : String) : Option FVal :=
  (q.find? (fun p => p.1 == k)).map Prod.snd

/-- `_validate_field` from `app/routes/analytics.py`: HTTP 400 unless the
field is whitelisted for the dataset. -/
def validate_field (c : Collection) (f : String) : Except PyErr Unit :=
  if f ∈ FIELDS c then .ok ()
  else .error (.http 400 ("field invalido para a colecao. Permitidos: whitelist"))

/-- `_validate_fields`: validate each field of a list in order. -/
def validate_fields (c : Collection) : List String → Except PyErr Unit
  | [] => .ok ()
  | f :: rest => do
    validate_field c f
    validate_fields c rest

/-- The optional scalar query parameters shared by every filter-accepting
analytics endpoint (signature of `_parse_filters`). -/
structure StdFilters where
  tipo_produto : Option String := none
  mes_do_ano_num : Option Int := none
  canal : Option String := none
  regiao_destino : Option String := none
  cliente_segmento : Option String := none
  date_from : Option String := none
  date_to : Option String := none
  extra_filters : Option String := none
deriving DecidableEq, Repr

/-- Python truthiness of an `Optional[str]` parameter. -/
def truthy : Option String → Bool
  | none => false
  | some s => s ≠ ""

/-- Value coercion for one extra-filter pair (`analytics.py` lines 74-79):
for a numeric field, try `float` if the value contains a dot else `int`;
on failure keep the raw string. -/
def coerceVal (c : Collection) (k v : String) : FVal :=
  if k ∈ NUMERIC_FIELDS c then
    if containsChar v '.' then
      match pyFloat v with
      | some q => .vfloat q
      | none => .vstr v
    else
      match pyInt v with
      | some n => .vint n
      | none => .vstr v
  else .vstr v

/-- Processing of one already-split, stripped extra-filter pair `k=v`:
whitelist-check the key, coerce the value, store it. -/
def applyPair (c : Collection) (k v : String) (q : Query) : Except PyErr Query := do
  validate_field c k
  pure (qset q k (coerceVal c k v))

/-- One raw comma-separated chunk of `extra_filters`: must contain `=`,
split at the first `=`, strip both sides. -/
def processPair (c : Collection) (pair : String) (q : Query) : Except PyErr Query :=
  match splitFirstChar '=' pair.toList with
  | none => .error (.http 400 "extra_filters invalido. Use: campo=valor,campo2=valor2")
  | some (k, v) => applyPair c (pyStrip (String.mk k)) (pyStrip (String.mk v)) q

def processPairs (c : Collection) : List String → Query → Except PyErr Query
  | [], q => .ok q
  | p :: rest, q => do
    let q2 ← processPair c p q
    processPairs c rest q2

/-- The comma-split, stripped, non-empty chunks of an `extra_filters` string. -/
def extraChunks (s : String) : List String :=
  ((pySplit s ',').map pyStrip).filter (fun p => p ≠ "")

/-- One standard string-valued exact-match filter (`analytics.py` lines
44-53): added only when truthy and whitelisted for the dataset, silently
dropped otherwise. -/
def std_str_filter (c : Collection) (k : String) (vo : Option String) (q : Query) : Query :=
  match vo with
  | some s => if s ≠ "" ∧ k ∈ FIELDS c then qset q k (.vstr s) else q
  | none => q

/-- The `mes_do_ano_num` exact-match filter (`is not None` check, no
truthiness on the integer). -/
def std_int_filter (c : Collection) (k : String) (vo : Option Int) (q : Query) : Query :=
  match vo with
  | some n => if k ∈ FIELDS c then qset q k (.vint n) else q
  | none => q

/-- The five standard exact-match filters of `_parse_filters`, in source
order starting from the empty dict. -/
def std_query (c : Collection) (f : StdFilters) : Query :=
  std_str_filter c "cliente_segmento" f.cliente_segmento
    (std_str_filter c "regiao_destino" f.regiao_destino
      (std_str_filter c "canal" f.canal
        (std_int_filter c "mes_do_ano_num" f.mes_do_ano_num
          (std_str_filter c "tipo_produto" f.tipo_produto []))))

/-- One bound of the date-range filter: `datetime.fromisoformat(s)` called
bare, so an unparseable string escapes as `ValueError`, not HTTP 400. -/
def parse_iso_bound (vo : Option String) : Except PyErr (Option PyDatetime) :=
  match vo with
  | some s =>
    if s ≠ "" then
      match fromisoformat s with
      | some d => .ok (some d)
      | none => .error (.valueError ("Invalid isoformat string: " ++ s))
    else .ok none
  | none => .ok none

/-- The date-range block of `_parse_filters` (lines 56-62): only for
datasets carrying `data_pedido`, `$gte` parsed before `$lte`. -/
def date_query (c : Collection) (f : StdFilters) (q : Query) : Except PyErr Query :=
  if "data_pedido" ∈ FIELDS c ∧ (truthy f.date_from ∨ truthy f.date_to) then do
    let gte ← parse_iso_bound f.date_from
    let lte ← parse_iso_bound f.date_to
    pure (qset q "data_pedido" (.vdate gte lte))
  else pure q

/-- `_parse_filters` from `app/routes/analytics.py`: standard exact-match
filters (silently dropped when not whitelisted), the date-range pair
(`datetime.fromisoformat`, whose `ValueError` escapes uncaught), then the
generic `extra_filters` string (strictly validated). -/
def extra_query (c : Collection) (vo : Option String) (q : Query) : Except PyErr Query :=
  match vo with
  | some s => if s ≠ "" then processPairs c (extraChunks s) q else pure q
  | none => pure q

def parse_filters (c : Collection) (f : StdFilters) : Except PyErr Query := do
  let q ← date_query c f (std_query c f)
  extra_query c f.extra_filters q

/-- The `Metric` literal of `app/routes/analytics.py`; FastAPI guarantees the
parameter is one of these eight. -/
inductive Metric
  | count
  | sum
  | avg
  | min
  | max
  | p50
  | p90
  | p95
deriving DecidableEq, Repr

/-- The accumulator expression `_metric_expr` builds for the `$group` stage. -/
inductive MetricExpr
  /-- `{"$sum": 1}` -/
  | sumOne
  | sumF (field : String)
  | avgF (field : String)
  | minF (field : String)
  | maxF (field : String)
  /-- `{"$percentile": {"input": "$field", "p": [p], "method": "approximate"}}` -/
  | percentile (field : String) (p : Rat)
deriving DecidableEq, Repr

/-- Field names a metric expression reads. -/
def MetricExpr.fieldsUsed : MetricExpr → List String
  | .sumOne => []
  | .sumF f => [f]
  | .avgF f => [f]
  | .minF f => [f]
  | .maxF f => [f]
  | .percentile f _ => [f]

/-- The accumulator built for a field-bearing metric (`analytics.py` lines
141-155). -/
def metric_base (m : Metric) (f : String) : MetricExpr :=
  match m with
  | .count => .sumOne
  | .sum => .sumF f
  | .avg => .avgF f
  | .min => .minF f
  | .max => .maxF f
  | .p50 => .percentile f (1/2)
  | .p90 => .percentile f (9/10)
  | .p95 => .percentile f (19/20)

/-- `_metric_expr` from `app/routes/analytics.py`: `count` needs no field;
every other metric raises HTTP 400 when `field` is falsy (absent or empty). -/
def metric_expr (m : Metric) (field : Option String) : Except PyErr MetricExpr :=
  if m = .count then .ok .sumOne
  else
    match field with
    | none => .error (.http 400 "metric diferente de count exige field")
    | some f =>
      if f = "" then .error (.http 400 "metric diferente de count exige field")
      else .ok (metric_base m f)

/-- Comma-split, stripped, non-empty entries of a `fields`/`group_by`
parameter (`[f.strip() for f in s.split(",") if f.strip()]`). -/
def splitFieldList (s : String) : List String :=
  ((pySplit s ',').map pyStrip).filter (fun f => f ≠ "")

/-- Everything `/analytics/data` decides before touching the store: the
validated predicate, the validated projection list, paging. -/
structure DataPlan where
  q : Query
  projection : List String
  page : Nat
  page_size : Nat
deriving DecidableEq, Repr

/-- The validation/builder phase of the `data` endpoint
(`app/routes/analytics.py` lines 101-126): parse filters first, then
validate the projection list. -/
def proj_fields (c : Collection) (fields : Option String) : Except PyErr (List String) :=
  match fields with
  | some s =>
    if s ≠ "" then do
      let l := splitFieldList s
      validate_fields c l
      pure l
    else pure []
  | none => pure []

def data_plan (c : Collection) (fields : Option String) (f : StdFilters)
    (page page_size : Nat) : Except PyErr DataPlan := do
  let q ← parse_filters c f
  let proj ← proj_fields c fields
  pure { q := q, projection := proj, page := page, page_size := page_size }

/-- The aggregation pipeline the `agg` endpoint builds: match on the
predicate, group by the validated keys with the metric accumulator,
sort by value, limit. -/
structure AggPlan where
  q : Query
  group_by : List String
  mexpr : MetricExpr
  sortAsc : Bool
  limit : Nat
deriving DecidableEq, Repr

/-- The `if field: _validate_field(collection, field)` guard of the `agg`
endpoint (`analytics.py` lines 184-185). -/
def opt_field_validate (c : Collection) (field : Option String) : Except PyErr Unit :=
  match field with
  | some fl => if fl ≠ "" then validate_field c fl else pure ()
  | none => pure ()

/-- The validation/builder phase of the `agg` endpoint
(`app/routes/analytics.py` lines 160-197): validate group keys, validate the
optional metric field, parse filters, build `_id` (an `IndexError` escapes
when the split group list is empty), build the metric expression. -/
def agg_plan (c : Collection) (group_by : String) (metric : Metric)
    (field : Option String) (sortAsc : Bool) (limit : Nat) (f : StdFilters) :
    Except PyErr AggPlan := do
  validate_fields c (splitFieldList group_by)
  opt_field_validate c field
  let q ← parse_filters c f
  if (splitFieldList group_by).isEmpty then
    Except.error (.valueError "list index out of range")
  else do
    let me ← metric_expr metric field
    pure { q := q, group_by := splitFieldList group_by, mexpr := me,
           sortAsc := sortAsc, limit := limit }

/-- Resolved kind of a distribution request. -/
inductive DistKind
  | auto
  | numeric
  | categorical
deriving DecidableEq, Repr

/-- The pipeline the `dist` endpoint builds over the validated field. -/
structure DistPlan where
  q : Query
  field : String
  /-- resolved to `numeric` or `categorical`; never `auto` -/
  kind : DistKind
  bins : Nat
  top_n : Nat
deriving DecidableEq, Repr

/-- The validation/builder phase of the `dist` endpoint
(`app/routes/analytics.py` lines 216-259): validate the field, parse
filters, resolve `auto` against the numeric whitelist. -/
def dist_plan (c : Collection) (field : String) (kind : DistKind)
    (bins top_n : Nat) (f : StdFilters) : Except PyErr DistPlan := do
  validate_field c field
  let q ← parse_filters c f
  let isNum := field ∈ NUMERIC_FIELDS c
  let kind2 := if kind = .auto then (if isNum then DistKind.numeric else .categorical) else kind
  pure { q := q, field := field, kind := kind2, bins := bins, top_n := top_n }

/-- The pipeline the `stats` endpoint builds over the validated field. -/
structure StatsPlan where
  q : Query
  field : String
  isNumeric : Bool
  top_n : Nat
deriving DecidableEq, Repr

/-- The validation/builder phase of the `stats` endpoint
(`app/routes/analytics.py` lines 264-298). -/
def stats_plan (c : Collection) (field : String) (top_n : Nat)
    (f : StdFilters) : Except PyErr StatsPlan := do
  validate_field c field
  let q ← parse_filters c f
  pure { q := q, field := field, isNumeric := field ∈ NUMERIC_FIELDS c, top_n := top_n }

/-- Time-series granularity literal. -/
inductive Granularity
  | day
  | month
deriving DecidableEq, Repr

/-- The pipeline the `timeseries` endpoint builds (always over `fatos`). -/
structure TsPlan where
  q : Query
  field : String
  mexpr : MetricExpr
  granularity : Granularity
deriving DecidableEq, Repr

/-- The validation/builder phase of the `timeseries` endpoint
(`app/routes/analytics.py` lines 316-359): collection fixed to `fatos`,
field must be whitelisted and numeric, then filters and metric. -/
def timeseries_plan (metric : Metric) (field : String) (granularity : Granularity)
    (f : StdFilters) : Except PyErr TsPlan := do
  validate_field .fatos field
  if field ∉ NUMERIC_FIELDS .fatos then
    Except.error (.http 400 "field precisa ser numerico em fatos")
  else do
    let q ← parse_filters .fatos f
    let me ← metric_expr metric (some field)
    pure { q := q, field := field, mexpr := me, granularity := granularity }

/-- A spreadsheet cell as `openpyxl` hands it to the import code. -/
inductive Cell
  | empty
  | str (s : String)
  | num (q : Rat)
  /-- a float NaN cell -/
  | nan
  | date (d : PyDatetime)
deriving DecidableEq, Repr

/-- `int(x)` truncation toward zero on a rational. -/
def ratTrunc (q : Rat) : Int :=
  if 0 ≤ q then Rat.floor q else Rat.ceil q

/-- `_safe_float` from `app/routes/upload.py`: float with comma-as-decimal,
`None` for empty/NaN/unparseable. -/
def safe_float : Cell → Option Rat
  | .empty => none
  | .nan => none
  | .num q => some q
  | .str s =>
    let t := replaceChar (pyStrip s) ',' '.'
    if t = "" then none else pyFloat t
  | .date _ => none

/-- `_safe_int` from `app/routes/upload.py`. -/
def safe_int : Cell → Option Int
  | .empty => none
  | .nan => none
  | .num q => if q.den = 1 then some q.num else none
  | .str s =>
    let t := pyStrip s
    if t = "" then none
    else (pyFloat (replaceChar t ',' '.')).map ratTrunc
  | .date _ => none

/-- `_safe_str` from `app/routes/upload.py`. Numeric and date cells go
through Python `str()`; the exact rendering is irrelevant to the claims. -/
def safe_str : Cell → Option String
  | .empty => none
  | .nan => none
  | .num q => some (toString q)
  | .date d => some (toString (repr d))
  | .str s =>
    let t := pyStrip s
    if t = "" then none else some t

/-- First ten characters of a string (`val.strip()[:10]`). -/
def take10 (s : String) : String := String.mk (s.toList.take 10)

/-- `datetime.strptime(s, "%Y-%m-%d")` restricted to the zero-padded form. -/
def strptimeYMD (s : String) : Option PyDatetime :=
  match s.toList with
  | [y1, y2, y3, y4, '-', m1, m2, '-', d1, d2] =>
    match digit4 y1 y2 y3 y4, digit2 m1 m2, digit2 d1 d2 with
    | some y, some mo, some d =>
      if 1 ≤ mo ∧ mo ≤ 12 ∧ 1 ≤ d ∧ d ≤ daysInMonth y mo then
        some { year := y, month := mo, day := d }
      else none
    | _, _, _ => none
  | _ => none

/-- `datetime.strptime(s, "%d/%m/%Y")` restricted to the zero-padded form. -/
def strptimeDMY (s : String) : Option PyDatetime :=
  match s.toList with
  | [d1, d2, '/', m1, m2, '/', y1, y2, y3, y4] =>
    match digit4 y1 y2 y3 y4, digit2 m1 m2, digit2 d1 d2 with
    | some y, some mo, some d =>
      if 1 ≤ mo ∧ mo ≤ 12 ∧ 1 ≤ d ∧ d ≤ daysInMonth y mo then
        some { year := y, month := mo, day := d }
      else none
    | _, _, _ => none
  | _ => none

/-- `_parse_data_pedido` from `app/routes/upload.py`: datetime cells pass
through; strings are truncated to ten characters and tried against
`%Y-%m-%d` then `%d/%m/%Y`; anything else is `None`. -/
def parse_data_pedido : Cell → Option PyDatetime
  | .date d => some d
  | .str s =>
    let t := take10 (pyStrip s)
    if t = "" then none
    else
      match strptimeYMD t with
      | some d => some d
      | none => strptimeDMY t
  | _ => none

/-- `MESES_NOME` from `app/routes/upload.py`. -/
def MESES_NOME (m : Nat) : String :=
  match m with
  | 1 => "Janeiro" | 2 => "Fevereiro" | 3 => "Março" | 4 => "Abril"
  | 5 => "Maio" | 6 => "Junho" | 7 => "Julho" | 8 => "Agosto"
  | 9 => "Setembro" | 10 => "Outubro" | 11 => "Novembro" | 12 => "Dezembro"
  | _ => ""

/-- One physical spreadsheet row below the header, with its cells already
looked up through the sheet's header map (sheets whose mandatory columns are
missing are skipped by the import and so contribute no rows here; absent
optional columns read as `empty`). -/
structure SheetRow where
  data : Cell
  quantidade : Cell
  preco : Cell
  canal : Cell := .empty
  regiao : Cell := .empty
  segmento : Cell := .empty
  nps : Cell := .empty
  logistica : Cell := .empty
  desconto : Cell := .empty
  lote : Cell := .empty
  qualidade : Cell := .empty
  perda : Cell := .empty
  umidade : Cell := .empty
  acidez : Cell := .empty
  fusao : Cell := .empty
  oxidacao : Cell := .empty
  cert : Cell := .empty
deriving DecidableEq, Repr

/-- A document of the `fatos_pedidos` collection as built by the import. -/
structure FatosDoc where
  id_pedido : String
  data_pedido : PyDatetime
  tipo_produto : String
  mes_do_ano : String
  mes_do_ano_num : Nat
  canal : Option String
  regiao_destino : Option String
  cliente_segmento : Option String
  quantidade_kg : Option Rat
  preco_unitario_brl_kg : Option Rat
  nps_0a10 : Option Int
  import_batch_id : String
deriving DecidableEq, Repr

/-- A document of the `polpa_metricas` collection as built by the import. -/
structure PolpaDoc where
  id_pedido : String
  logistica_brl : Option Rat
  desconto_brl : Option Rat
  lote_id : Option String
  indice_qualidade_1a10 : Option Int
  perda_processamento_pct : Option Rat
  import_batch_id : String
deriving DecidableEq, Repr

/-- A document of the `manteiga_metricas` collection as built by the import. -/
structure ManteigaDoc where
  id_pedido : String
  teor_umidade_pct : Option Rat
  indice_acidez_mgKOH_g : Option Rat
  ponto_fusao_c : Option Rat
  indice_oxidacao_1a10 : Option Int
  certificacao_exigida : Option String
  import_batch_id : String
deriving DecidableEq, Repr

/-- `f"{mes:02d}"`: zero-padded two-digit month. -/
def twoDigit (n : Nat) : String :=
  if n < 10 then "0" ++ toString n else toString n

/-- The synthesized order identifier
`f"{tipo_produto}_{ano}-{mes:02d}_{idx_row}"` (`upload.py` line 191). -/
def make_id (tipo : String) (ano mes idx : Nat) : String :=
  tipo ++ "_" ++ toString ano ++ "-" ++ twoDigit mes ++ "_" ++ toString idx

/-- Row acceptance test of the import loop (`upload.py` lines 176-188): the
date must parse and quantity/price must not both be missing. Returns the
parsed date with quantity/price on acceptance. -/
def accept_row (r : SheetRow) : Option (PyDatetime × Option Rat × Option Rat) :=
  match parse_data_pedido r.data with
  | none => none
  | some d =>
    let qt := safe_float r.quantidade
    let pr := safe_float r.preco
    if qt = none ∧ pr = none then none else some (d, qt, pr)

/-- The `fatos_pedidos` document built for an accepted row at physical offset
`idx` below the header (`upload.py` lines 190-212). -/
def row_fatos_doc (tipo batch : String) (idx : Nat) (r : SheetRow) : Option FatosDoc :=
  (accept_row r).map fun (d, qt, pr) =>
    { id_pedido := make_id tipo d.year d.month idx
      data_pedido := d
      tipo_produto := tipo
      mes_do_ano := MESES_NOME d.month
      mes_do_ano_num := d.month
      canal := safe_str r.canal
      regiao_destino := safe_str r.regiao
      cliente_segmento := safe_str r.segmento
      nps_0a10 := safe_int r.nps
      quantidade_kg := qt
      preco_unitario_brl_kg := pr
      import_batch_id := batch }

/-- The `polpa_metricas` document built for an accepted row of a pulp sheet
(`upload.py` lines 214-228). -/
def row_polpa_doc (tipo batch : String) (idx : Nat) (r : SheetRow) : Option PolpaDoc :=
  (accept_row r).map fun (d, _, _) =>
    { id_pedido := make_id tipo d.year d.month idx
      logistica_brl := safe_float r.logistica
      desconto_brl := safe_float r.desconto
      lote_id := safe_str r.lote
      indice_qualidade_1a10 := safe_int r.qualidade
      perda_processamento_pct := safe_float r.perda
      import_batch_id := batch }

/-- The `manteiga_metricas` document built for an accepted row of a butter
sheet (`upload.py` lines 229-243). -/
def row_manteiga_doc (tipo batch : String) (idx : Nat) (r : SheetRow) : Option ManteigaDoc :=
  (accept_row r).map fun (d, _, _) =>
    { id_pedido := make_id tipo d.year d.month idx
      teor_umidade_pct := safe_float r.umidade
      indice_acidez_mgKOH_g := safe_float r.acidez
      ponto_fusao_c := safe_float r.fusao
      indice_oxidacao_1a10 := safe_int r.oxidacao
      certificacao_exigida := safe_str r.cert
      import_batch_id := batch }

/-- The documents a classified sheet contributes, in row order. The physical
row number is `idx + 2` (`idx_row = row_num - 2`), so the `enum` index is
exactly the row's offset below the header row. -/
def sheet_fatos (tipo batch : String) (rows : List SheetRow) : List FatosDoc :=
  rows.enum.filterMap fun p => row_fatos_doc tipo batch p.1 p.2

def sheet_polpa (tipo batch : String) (rows : List SheetRow) : List PolpaDoc :=
  rows.enum.filterMap fun p => row_polpa_doc tipo batch p.1 p.2

def sheet_manteiga (tipo batch : String) (rows : List SheetRow) : List ManteigaDoc :=
  rows.enum.filterMap fun p => row_manteiga_doc tipo batch p.1 p.2

/-- A workbook: the sheets in tab order, each with its name and its physical
rows below the header. -/
structure Sheet where
  name : String
  rows : List SheetRow
deriving DecidableEq, Repr

abbrev Workbook := List Sheet

/-- Sheet classification of `upload_excel` (`upload.py` lines 133-144):
substring match on the lowercased tab name; unmatched sheets are skipped. -/
def sheet_docs (batch : String) (sh : Sheet) :
    List FatosDoc × List PolpaDoc × List ManteigaDoc :=
  if strContains (strLower sh.name) "polpa" then
    (sheet_fatos "Polpa congelada" batch sh.rows,
     sheet_polpa "Polpa congelada" batch sh.rows, [])
  else if strContains (strLower sh.name) "manteiga" then
    (sheet_fatos "Manteiga de manga" batch sh.rows, [],
     sheet_manteiga "Manteiga de manga" batch sh.rows)
  else ([], [], [])

/-- All documents one invocation of the import inserts, per collection. -/
def wb_docs (batch : String) : Workbook → List FatosDoc × List PolpaDoc × List ManteigaDoc
  | [] => ([], [], [])
  | sh :: rest =>
    let d := sheet_docs batch sh
    let r := wb_docs batch rest
    (d.1 ++ r.1, d.2.1 ++ r.2.1, d.2.2 ++ r.2.2)

/-- The three persisted collections (plus nothing else relevant here). -/
structure Store where
  fatos : List FatosDoc
  polpa : List PolpaDoc
  manteiga : List ManteigaDoc
deriving DecidableEq, Repr

def emptyStore : Store := ⟨[], [], []⟩

/-- `upload_excel` as a state transformer: each sheet's valid rows are bulk
appended (`insert_many`) to the three collections; returns the new store and
the per-collection insert counts of the response. -/
def upload_excel (wb : Workbook) (batch : String) (s : Store) : Store × Nat × Nat × Nat :=
  let d := wb_docs batch wb
  (⟨s.fatos ++ d.1, s.polpa ++ d.2.1, s.manteiga ++ d.2.2⟩,
   d.1.length, d.2.1.length, d.2.2.length)

/-- Records of each collection carrying a given `import_batch_id`. -/
def countBatchFatos (s : Store) (b : String) : Nat :=
  s.fatos.countP fun d => d.import_batch_id == b

def countBatchPolpa (s : Store) (b : String) : Nat :=
  s.polpa.countP fun d => d.import_batch_id == b

def countBatchManteiga (s : Store) (b : String) : Nat :=
  s.manteiga.countP fun d => d.import_batch_id == b

/-- The store left by `revert_import`'s three `delete_many` calls. -/
def revertStore (b : String) (s : Store) : Store :=
  ⟨s.fatos.filter (fun d => !(d.import_batch_id == b)),
   s.polpa.filter (fun d => !(d.import_batch_id == b)),
   s.manteiga.filter (fun d => !(d.import_batch_id == b))⟩

/-- `revert_import` from `app/routes/upload.py`: HTTP 400 when the batch id
is empty or whitespace-only, otherwise a blind bulk delete by
`import_batch_id` in all three collections, reporting deleted counts. -/
def revert_import (b : String) (s : Store) : Except PyErr (Store × Nat × Nat × Nat) :=
  if pyStrip b = "" then .error (.http 400 "batch_id e obrigatorio.")
  else
    let s2 := revertStore b s
    .ok (s2, s.fatos.length - s2.fatos.length,
         s.polpa.length - s2.polpa.length,
         s.manteiga.length - s2.manteiga.length)

/-- The claims a signed token carries, as `jose.jwt.decode` would return
them. `sub` is the username claim set at login. -/
structure TokenPayload where
  sub : Option String
deriving DecidableEq, Repr

/-- A presented bearer token, abstracting the external JWT library:
`wellSigned` is signature/format validity under the configured key and
algorithm, `expired` is the `exp` claim check. -/
structure Jwt where
  wellSigned : Bool
  expired : Bool
  payload : TokenPayload
deriving DecidableEq, Repr

/-- `decode_access_token` from `app/auth.py`: returns the payload, or `None`
on any `JWTError` (bad signature, malformed token, expired token). -/
def decode_access_token (t : Jwt) : Option TokenPayload :=
  if t.wellSigned && !t.expired then some t.payload else none

/-- A stored user document (password hash irrelevant here). -/
structure UserDoc where
  username : String
deriving DecidableEq, Repr

/-- `users.find_one({"username": name})`. -/
def users_find (users : List UserDoc) (name : String) : Option UserDoc :=
  users.find? fun u => u.username == name

/-- `get_current_user` from `app/routes/auth.py`: the dependency every
protected route runs. `credentials = none` models a request with no bearer
token. -/
def get_current_user (users : List UserDoc) (credentials : Option Jwt) :
    Except PyErr UserDoc :=
  match credentials with
  | none => .error (.http 401 "Token nao informado")
  | some t =>
    match decode_access_token t with
    | none => .error (.http 401 "Token invalido ou expirado")
    | some payload =>
      match payload.sub with
      | none => .error (.http 401 "Token invalido")
      | some username =>
        if username = "" then .error (.http 401 "Token invalido")
        else
          match users_find users username with
          | none => .error (.http 401 "Usuario nao encontrado")
          | some u => .ok u

/-- `fatos.find_one({"id_pedido": id})`. -/
def find_pedido (s : Store) (id : String) : Option FatosDoc :=
  s.fatos.find? fun d => d.id_pedido == id

/-- The technical-metrics half of a join response (`None` when no matching
metrics document exists or the product type matches neither category). -/
inductive Detalhes
  | nenhum
  | polpa (d : PolpaDoc)
  | manteiga (d : ManteigaDoc)
deriving DecidableEq, Repr

/-- Detail lookup shared by both single-order endpoints: product-type
substring match selects the metrics collection. -/
def lookup_detalhes (s : Store) (tipo id : String) : Detalhes :=
  if strContains tipo "Polpa" then
    match s.polpa.find? (fun d => d.id_pedido == id) with
    | some d => .polpa d
    | none => .nenhum
  else if strContains tipo "Manteiga" then
    match s.manteiga.find? (fun d => d.id_pedido == id) with
    | some d => .manteiga d
    | none => .nenhum
  else .nenhum

/-- `join` from `app/routes/analytics.py` (lines 370-387): HTTP 404 when the
order id is unknown, else the order plus its matched metrics document. -/
def join_route (s : Store) (id : String) : Except PyErr (FatosDoc × Detalhes) :=
  match find_pedido s id with
  | none => .error (.http 404 "Pedido nao encontrado")
  | some p => .ok (p, lookup_detalhes s p.tipo_produto id)

/-- The JSON body `detalhe_pedido` returns with HTTP 200: either an error
message (no order) or the order plus details. -/
inductive DetalheResp
  | erro (msg : String)
  | found (pedido : FatosDoc) (detalhes : Detalhes)
deriving DecidableEq, Repr

/-- `detalhe_pedido` from `app/routes/pedidos.py` (lines 123-140): never
raises; an unknown id yields a 200 response whose body is an error dict. -/
def detalhe_pedido (s : Store) (id : String) : DetalheResp :=
  match find_pedido s id with
  | none => .erro "Pedido nao encontrado"
  | some p => .found p (lookup_detalhes s p.tipo_produto id)

/-- Round half to even (Python `round` on an exact value). -/
def roundHalfEven (x : Rat) : Int :=
  let f : Int := Rat.floor x
  let r : Rat := x - (f : Rat)
  if r < 1/2 then f
  else if (1:Rat)/2 < r then f + 1
  else if f % 2 = 0 then f else f + 1

/-- `round(x, 2)` on an exact value. -/
def pyRound2 (x : Rat) : Rat := (roundHalfEven (x * 100) : Rat) / 100

/-- `_var` from `visao_geral` (`app/routes/dashboard.py` lines 157-160):
month-over-month percentage delta, `None` when the prior value is `None`
or zero; a missing current value counts as zero (`current_val or 0`). -/
def var_pct (current prev : Option Rat) : Option Rat :=
  match prev with
  | none => none
  | some p =>
    if p = 0 then none
    else some (pyRound2 ((current.getD 0 - p) / p * 100))

/-- The KPI record either aggregation period yields (each entry `None` when
the aggregation returned no document or a null average). -/
structure KPIs where
  faturamento_total : Option Rat := none
  volume_kg : Option Rat := none
  num_pedidos : Option Rat := none
  ticket_medio : Option Rat := none
  nps_medio : Option Rat := none
deriving DecidableEq, Repr

/-- The `variacao_pct` object of the overview response. -/
structure Variacao where
  faturamento : Option Rat
  volume_kg : Option Rat
  num_pedidos : Option Rat
  ticket_medio : Option Rat
  nps_medio : Option Rat
deriving DecidableEq, Repr

/-- The `variacao_pct` block of `visao_geral` (`dashboard.py` lines 166-172):
`_var` applied to each KPI pair. -/
def variacao_pct (current prev : KPIs) : Variacao :=
  { faturamento := var_pct current.faturamento_total prev.faturamento_total
    volume_kg := var_pct current.volume_kg prev.volume_kg
    num_pedidos := var_pct current.num_pedidos prev.num_pedidos
    ticket_medio := var_pct current.ticket_medio prev.ticket_medio
    nps_medio := var_pct current.nps_medio prev.nps_medio }

/-- A one-row pulp sheet used to exercise the import concretely. -/
def exampleRow : SheetRow :=
  { data := .date { year := 2025, month := 7, day := 1 }
    quantidade := .num 10
    preco := .num 5 }

/-- A workbook with a single pulp sheet holding `exampleRow`. -/
def exampleWb : Workbook := [{ name := "Polpa congelada - Jan", rows := [exampleRow] }]

/-! ## Helper lemmas -/

theorem validate_field_mem {c : Collection} {f : String}
    (h : validate_field c f = .ok ()) : f ∈ FIELDS c := by
  by_contra hf
  simp [validate_field, hf] at h

theorem validate_field_not_mem {c : Collection} {f : String} (hf : f ∉ FIELDS c) :
    validate_field c f =
      .error (.http 400 "field invalido para a colecao. Permitidos: whitelist") := by
  simp [validate_field, hf]

theorem validate_field_of_mem {c : Collection} {f : String} (hf : f ∈ FIELDS c) :
    validate_field c f = .ok () := by
  simp [validate_field, hf]

theorem validate_fields_ok_mem {c : Collection} :
    ∀ {l : List String}, validate_fields c l = .ok () → ∀ x ∈ l, x ∈ FIELDS c := by
  intro l
  induction l with
  | nil => intro _ x hx; cases hx
  | cons f rest ih =>
    intro h x hx
    unfold validate_fields at h
    cases hvf : validate_field c f with
    | error e => rw [hvf] at h; simp [Bind.bind, Except.bind] at h
    | ok u =>
      rw [hvf] at h
      simp only [Bind.bind, Except.bind] at h
      cases hx with
      | head => exact validate_field_mem hvf
      | tail _ hx => exact ih h x hx

theorem validate_fields_err_of_bad {c : Collection} :
    ∀ {l : List String} {x : String}, x ∈ l → x ∉ FIELDS c →
      ∃ d, validate_fields c l = .error (.http 400 d) := by
  intro l
  induction l with
  | nil => intro x hx; cases hx
  | cons f rest ih =>
    intro x hx hbad
    unfold validate_fields
    by_cases hf : f ∈ FIELDS c
    · rw [validate_field_of_mem hf]
      simp only [Bind.bind, Except.bind]
      cases hx with
      | head => exact absurd hf hbad
      | tail _ hx => exact ih hx hbad
    · rw [validate_field_not_mem hf]
      exact ⟨_, rfl⟩

theorem exbind_err {α β : Type} (e : PyErr) (f : α → Except PyErr β) :
    (Except.error e >>= f : Except PyErr β) = Except.error e := rfl

theorem exbind_ok {α β : Type} (a : α) (f : α → Except PyErr β) :
    (Except.ok a >>= f : Except PyErr β) = f a := rfl

theorem validate_fields_err {c : Collection} :
    ∀ {l : List String} {e : PyErr}, validate_fields c l = .error e →
      ∃ d, e = .http 400 d := by
  intro l
  induction l with
  | nil => intro e h; cases h
  | cons f rest ih =>
    intro e h
    unfold validate_fields at h
    by_cases hf : f ∈ FIELDS c
    · rw [validate_field_of_mem hf, exbind_ok] at h
      exact ih h
    · rw [validate_field_not_mem hf, exbind_err] at h
      injection h with h2
      exact ⟨_, h2.symm⟩

theorem qkeys_qset {q : Query} {k x : String} {v : FVal}
    (hx : x ∈ qkeys (qset q k v)) : x ∈ qkeys q ∨ x = k := by
  unfold qset at hx
  split at hx
  · unfold qkeys at hx
    rw [List.map_map] at hx
    obtain ⟨p, hp, he⟩ := List.mem_map.mp hx
    by_cases hpk : p.1 == k
    · rw [Function.comp_apply, if_pos hpk] at he
      exact Or.inr he.symm
    · rw [Function.comp_apply, if_neg hpk] at he
      exact Or.inl (List.mem_map.mpr ⟨p, hp, he⟩)
  · unfold qkeys at hx ⊢
    rw [List.map_append, List.mem_append] at hx
    rcases hx with h | h
    · exact Or.inl h
    · simp at h
      exact Or.inr h

theorem std_str_filter_keys {c : Collection} {k x : String} {vo : Option String} {q : Query}
    (hx : x ∈ qkeys (std_str_filter c k vo q)) :
    x ∈ qkeys q ∨ (x = k ∧ k ∈ FIELDS c) := by
  cases vo with
  | none => exact Or.inl hx
  | some s =>
    simp only [std_str_filter] at hx
    by_cases hcond : s ≠ "" ∧ k ∈ FIELDS c
    · rw [if_pos hcond] at hx
      rcases qkeys_qset hx with h | h
      · exact Or.inl h
      · exact Or.inr ⟨h, hcond.2⟩
    · rw [if_neg hcond] at hx
      exact Or.inl hx

theorem std_int_filter_keys {c : Collection} {k x : String} {vo : Option Int} {q : Query}
    (hx : x ∈ qkeys (std_int_filter c k vo q)) :
    x ∈ qkeys q ∨ (x = k ∧ k ∈ FIELDS c) := by
  cases vo with
  | none => exact Or.inl hx
  | some n =>
    simp only [std_int_filter] at hx
    by_cases hcond : k ∈ FIELDS c
    · rw [if_pos hcond] at hx
      rcases qkeys_qset hx with h | h
      · exact Or.inl h
      · exact Or.inr ⟨h, hcond⟩
    · rw [if_neg hcond] at hx
      exact Or.inl hx

theorem std_query_keys {c : Collection} {f : StdFilters} {x : String}
    (hx : x ∈ qkeys (std_query c f)) : x ∈ FIELDS c := by
  unfold std_query at hx
  rcases std_str_filter_keys hx with hx | ⟨rfl, h⟩
  · rcases std_str_filter_keys hx with hx | ⟨rfl, h⟩
    · rcases std_str_filter_keys hx with hx | ⟨rfl, h⟩
      · rcases std_int_filter_keys hx with hx | ⟨rfl, h⟩
        · rcases std_str_filter_keys hx with hx | ⟨rfl, h⟩
          · simp [qkeys] at hx
          · exact h
        · exact h
      · exact h
    · exact h
  · exact h

theorem parse_iso_bound_err {vo : Option String} {e : PyErr}
    (h : parse_iso_bound vo = .error e) : ∃ m, e = .valueError m := by
  cases vo with
  | none => simp [parse_iso_bound] at h
  | some s =>
    simp only [parse_iso_bound] at h
    split at h
    · cases hiso : fromisoformat s with
      | some d => rw [hiso] at h; simp at h
      | none =>
        rw [hiso] at h
        injection h with h2
        exact ⟨_, h2.symm⟩
    · simp at h

theorem date_query_ok_keys {c : Collection} {f : StdFilters} {q q2 : Query} {x : String}
    (h : date_query c f q = .ok q2) (hx : x ∈ qkeys q2) :
    x ∈ qkeys q ∨ (x = "data_pedido" ∧ "data_pedido" ∈ FIELDS c) := by
  unfold date_query at h
  split at h
  · rename_i hcond
    cases hg : parse_iso_bound f.date_from with
    | error e => rw [hg, exbind_err] at h; cases h
    | ok gte =>
      rw [hg, exbind_ok] at h
      cases hl : parse_iso_bound f.date_to with
      | error e => rw [hl, exbind_err] at h; cases h
      | ok lte =>
        rw [hl, exbind_ok] at h
        injection h with h2
        subst h2
        rcases qkeys_qset hx with h | h
        · exact Or.inl h
        · exact Or.inr ⟨h, hcond.1⟩
  · injection h with h2
    subst h2
    exact Or.inl hx

theorem date_query_err {c : Collection} {f : StdFilters} {q : Query} {e : PyErr}
    (h : date_query c f q = .error e) : ∃ m, e = .valueError m := by
  unfold date_query at h
  split at h
  · cases hg : parse_iso_bound f.date_from with
    | error eg =>
      rw [hg, exbind_err] at h
      injection h with h2
      subst h2
      exact parse_iso_bound_err hg
    | ok gte =>
      rw [hg, exbind_ok] at h
      cases hl : parse_iso_bound f.date_to with
      | error el =>
        rw [hl, exbind_err] at h
        injection h with h2
        subst h2
        exact parse_iso_bound_err hl
      | ok lte =>
        rw [hl, exbind_ok] at h
        cases h
  · cases h

theorem applyPair_ok {c : Collection} {k v : String} {q q2 : Query}
    (h : applyPair c k v q = .ok q2) :
    k ∈ FIELDS c ∧ q2 = qset q k (coerceVal c k v) := by
  unfold applyPair at h
  by_cases hk : k ∈ FIELDS c
  · rw [validate_field_of_mem hk, exbind_ok] at h
    injection h with h2
    exact ⟨hk, h2.symm⟩
  · rw [validate_field_not_mem hk, exbind_err] at h
    cases h

theorem applyPair_bad {c : Collection} {k v : String} {q : Query} (hk : k ∉ FIELDS c) :
    applyPair c k v q =
      .error (.http 400 "field invalido para a colecao. Permitidos: whitelist") := by
  unfold applyPair
  rw [validate_field_not_mem hk, exbind_err]

theorem applyPair_of_mem {c : Collection} {k : String} (v : String) (q : Query)
    (hk : k ∈ FIELDS c) :
    applyPair c k v q = .ok (qset q k (coerceVal c k v)) := by
  unfold applyPair
  rw [validate_field_of_mem hk, exbind_ok]
  rfl

theorem applyPair_err {c : Collection} {k v : String} {q : Query} {e : PyErr}
    (h : applyPair c k v q = .error e) : ∃ d, e = .http 400 d := by
  by_cases hk : k ∈ FIELDS c
  · rw [applyPair_of_mem v q hk] at h
    cases h
  · rw [applyPair_bad hk] at h
    injection h with h2
    exact ⟨_, h2.symm⟩

theorem processPair_err {c : Collection} {pair : String} {q : Query} {e : PyErr}
    (h : processPair c pair q = .error e) : ∃ d, e = .http 400 d := by
  unfold processPair at h
  split at h
  · injection h with h2
    exact ⟨_, h2.symm⟩
  · exact applyPair_err h

theorem processPair_ok_keys {c : Collection} {pair : String} {q q2 : Query} {x : String}
    (h : processPair c pair q = .ok q2) (hx : x ∈ qkeys q2) :
    x ∈ qkeys q ∨ x ∈ FIELDS c := by
  unfold processPair at h
  split at h
  · cases h
  · obtain ⟨hk, rfl⟩ := applyPair_ok h
    rcases qkeys_qset hx with h2 | h2
    · exact Or.inl h2
    · subst h2
      exact Or.inr hk

theorem processPairs_err {c : Collection} :
    ∀ {ps : List String} {q : Query} {e : PyErr},
      processPairs c ps q = .error e → ∃ d, e = .http 400 d := by
  intro ps
  induction ps with
  | nil => intro q e h; cases h
  | cons p rest ih =>
    intro q e h
    unfold processPairs at h
    cases hp : processPair c p q with
    | error ep =>
      rw [hp, exbind_err] at h
      injection h with h2
      subst h2
      exact processPair_err hp
    | ok q2 =>
      rw [hp, exbind_ok] at h
      exact ih h

theorem processPairs_ok_keys {c : Collection} :
    ∀ {ps : List String} {q q2 : Query},
      processPairs c ps q = .ok q2 →
      ∀ x ∈ qkeys q2, x ∈ qkeys q ∨ x ∈ FIELDS c := by
  intro ps
  induction ps with
  | nil =>
    intro q q2 h x hx
    unfold processPairs at h
    injection h with h2
    subst h2
    exact Or.inl hx
  | cons p rest ih =>
    intro q q2 h x hx
    unfold processPairs at h
    cases hp : processPair c p q with
    | error ep => rw [hp, exbind_err] at h; cases h
    | ok qmid =>
      rw [hp, exbind_ok] at h
      rcases ih h x hx with h2 | h2
      · exact processPair_ok_keys hp h2
      · exact Or.inr h2

theorem extra_query_ok_keys {c : Collection} {vo : Option String} {q q2 : Query}
    (h : extra_query c vo q = .ok q2) :
    ∀ x ∈ qkeys q2, x ∈ qkeys q ∨ x ∈ FIELDS c := by
  intro x hx
  cases vo with
  | none =>
    simp only [extra_query] at h
    injection h with h2
    subst h2
    exact Or.inl hx
  | some s =>
    simp only [extra_query] at h
    by_cases hs : s = ""
    · rw [if_neg (by simpa using hs)] at h
      injection h with h2
      subst h2
      exact Or.inl hx
    · rw [if_pos hs] at h
      exact processPairs_ok_keys h x hx

theorem extra_query_err {c : Collection} {vo : Option String} {q : Query} {e : PyErr}
    (h : extra_query c vo q = .error e) : ∃ d, e = .http 400 d := by
  cases vo with
  | none =>
    simp only [extra_query] at h
    cases h
  | some s =>
    simp only [extra_query] at h
    by_cases hs : s = ""
    · rw [if_neg (by simpa using hs)] at h
      cases h
    · rw [if_pos hs] at h
      exact processPairs_err h

/-- Every key of a predicate `_parse_filters` successfully builds is
whitelisted for the dataset (standard filters and the date range are only
added under a membership guard; extra-filter keys are validated). -/
theorem parse_filters_ok_keys {c : Collection} {f : StdFilters} {q : Query}
    (h : parse_filters c f = .ok q) : ∀ x ∈ qkeys q, x ∈ FIELDS c := by
  intro x hx
  unfold parse_filters at h
  cases hd : date_query c f (std_query c f) with
  | error e => rw [hd, exbind_err] at h; cases h
  | ok qd =>
    rw [hd, exbind_ok] at h
    rcases extra_query_ok_keys h x hx with h2 | h2
    · rcases date_query_ok_keys hd h2 with h3 | ⟨_, h3⟩
      · exact std_query_keys h3
      · subst_vars
        exact h3
    · exact h2

/-- `_parse_filters` fails only with HTTP 400 (strict extra-filter
validation) or an uncaught `ValueError` (malformed date string). -/
theorem parse_filters_err {c : Collection} {f : StdFilters} {e : PyErr}
    (h : parse_filters c f = .error e) :
    (∃ d, e = .http 400 d) ∨ (∃ m, e = .valueError m) := by
  unfold parse_filters at h
  cases hd : date_query c f (std_query c f) with
  | error ed =>
    rw [hd, exbind_err] at h
    injection h with h2
    subst h2
    exact Or.inr (date_query_err hd)
  | ok qd =>
    rw [hd, exbind_ok] at h
    exact Or.inl (extra_query_err h)

theorem proj_fields_ok_mem {c : Collection} {fields : Option String} {l : List String}
    (h : proj_fields c fields = .ok l) : ∀ x ∈ l, x ∈ FIELDS c := by
  intro x hx
  cases fields with
  | none =>
    simp only [proj_fields] at h
    injection h with h2
    subst h2
    cases hx
  | some s =>
    simp only [proj_fields] at h
    by_cases hs : s = ""
    · rw [if_neg (by simpa using hs)] at h
      injection h with h2
      subst h2
      cases hx
    · rw [if_pos hs] at h
      cases hvf : validate_fields c (splitFieldList s) with
      | error e => rw [hvf, exbind_err] at h; cases h
      | ok u =>
        cases u
        rw [hvf, exbind_ok] at h
        injection h with h2
        subst h2
        exact validate_fields_ok_mem hvf x hx

theorem proj_fields_err {c : Collection} {fields : Option String} {e : PyErr}
    (h : proj_fields c fields = .error e) : ∃ d, e = .http 400 d := by
  cases fields with
  | none =>
    simp only [proj_fields] at h
    cases h
  | some s =>
    simp only [proj_fields] at h
    by_cases hs : s = ""
    · rw [if_neg (by simpa using hs)] at h
      cases h
    · rw [if_pos hs] at h
      cases hvf : validate_fields c (splitFieldList s) with
      | error ev =>
        rw [hvf, exbind_err] at h
        injection h with h2
        subst h2
        exact validate_fields_err hvf
      | ok u =>
        cases u
        rw [hvf, exbind_ok] at h
        cases h

theorem metric_base_fields (m : Metric) (f : String) :
    (metric_base m f).fieldsUsed = [] ∨ (metric_base m f).fieldsUsed = [f] := by
  cases m <;> simp [metric_base, MetricExpr.fieldsUsed]

theorem metric_expr_ok_fields {m : Metric} {fo : Option String} {me : MetricExpr}
    (h : metric_expr m fo = .ok me) :
    me.fieldsUsed = [] ∨ ∃ fl, fo = some fl ∧ fl ≠ "" ∧ me.fieldsUsed = [fl] := by
  unfold metric_expr at h
  split at h
  · injection h with h2
    subst h2
    exact Or.inl rfl
  · split at h
    · cases h
    · split at h
      · cases h
      · rename_i f hf
        injection h with h2
        subst h2
        rcases metric_base_fields m f with h3 | h3
        · exact Or.inl h3
        · exact Or.inr ⟨f, rfl, hf, h3⟩

theorem opt_field_validate_ok {c : Collection} {fo : Option String}
    (h : opt_field_validate c fo = .ok ()) :
    ∀ fl, fo = some fl → fl ≠ "" → fl ∈ FIELDS c := by
  intro fl hfo hne
  subst hfo
  simp only [opt_field_validate] at h
  rw [if_pos hne] at h
  exact validate_field_mem h

theorem data_plan_ok {c : Collection} {fields : Option String} {f : StdFilters}
    {page ps : Nat} {plan : DataPlan}
    (h : data_plan c fields f page ps = .ok plan) :
    (∀ x ∈ plan.projection, x ∈ FIELDS c) ∧ (∀ x ∈ qkeys plan.q, x ∈ FIELDS c) := by
  unfold data_plan at h
  cases hpf : parse_filters c f with
  | error e => rw [hpf, exbind_err] at h; cases h
  | ok q =>
    rw [hpf, exbind_ok] at h
    cases hpj : proj_fields c fields with
    | error e => rw [hpj, exbind_err] at h; cases h
    | ok proj =>
      rw [hpj, exbind_ok] at h
      injection h with h2
      subst h2
      exact ⟨proj_fields_ok_mem hpj, parse_filters_ok_keys hpf⟩

theorem agg_plan_ok {c : Collection} {gb : String} {m : Metric} {fo : Option String}
    {srt : Bool} {lim : Nat} {f : StdFilters} {plan : AggPlan}
    (h : agg_plan c gb m fo srt lim f = .ok plan) :
    (∀ x ∈ plan.group_by, x ∈ FIELDS c) ∧
    (∀ x ∈ plan.mexpr.fieldsUsed, x ∈ FIELDS c) ∧
    (∀ x ∈ qkeys plan.q, x ∈ FIELDS c) := by
  unfold agg_plan at h
  cases hvf : validate_fields c (splitFieldList gb) with
  | error e => rw [hvf, exbind_err] at h; cases h
  | ok u =>
    cases u
    rw [hvf, exbind_ok] at h
    cases hof : opt_field_validate c fo with
    | error e => rw [hof, exbind_err] at h; cases h
    | ok u =>
      cases u
      rw [hof, exbind_ok] at h
      cases hpf : parse_filters c f with
      | error e => rw [hpf, exbind_err] at h; cases h
      | ok q =>
        rw [hpf, exbind_ok] at h
        split at h
        · cases h
        · cases hme : metric_expr m fo with
          | error e => rw [hme, exbind_err] at h; cases h
          | ok me =>
            rw [hme, exbind_ok] at h
            injection h with h2
            subst h2
            refine ⟨validate_fields_ok_mem hvf, ?_, parse_filters_ok_keys hpf⟩
            intro x hx
            rcases metric_expr_ok_fields hme with h3 | ⟨fl, hfl, hne, h3⟩
            · rw [h3] at hx
              cases hx
            · rw [h3] at hx
              cases hx with
              | head => exact opt_field_validate_ok hof _ hfl hne
              | tail _ hx2 => cases hx2

theorem dist_plan_ok {c : Collection} {fl : String} {kind : DistKind}
    {bins tn : Nat} {f : StdFilters} {plan : DistPlan}
    (h : dist_plan c fl kind bins tn f = .ok plan) :
    plan.field ∈ FIELDS c ∧ (∀ x ∈ qkeys plan.q, x ∈ FIELDS c) := by
  unfold dist_plan at h
  cases hvf : validate_field c fl with
  | error e => rw [hvf, exbind_err] at h; cases h
  | ok u =>
    cases u
    rw [hvf, exbind_ok] at h
    cases hpf : parse_filters c f with
    | error e => rw [hpf, exbind_err] at h; cases h
    | ok q =>
      rw [hpf, exbind_ok] at h
      injection h with h2
      subst h2
      exact ⟨validate_field_mem hvf, parse_filters_ok_keys hpf⟩

theorem stats_plan_ok {c : Collection} {fl : String} {tn : Nat} {f : StdFilters}
    {plan : StatsPlan} (h : stats_plan c fl tn f = .ok plan) :
    plan.field ∈ FIELDS c ∧ (∀ x ∈ qkeys plan.q, x ∈ FIELDS c) := by
  unfold stats_plan at h
  cases hvf : validate_field c fl with
  | error e => rw [hvf, exbind_err] at h; cases h
  | ok u =>
    cases u
    rw [hvf, exbind_ok] at h
    cases hpf : parse_filters c f with
    | error e => rw [hpf, exbind_err] at h; cases h
    | ok q =>
      rw [hpf, exbind_ok] at h
      injection h with h2
      subst h2
      exact ⟨validate_field_mem hvf, parse_filters_ok_keys hpf⟩

theorem timeseries_plan_ok {m : Metric} {fl : String} {g : Granularity}
    {f : StdFilters} {plan : TsPlan}
    (h : timeseries_plan m fl g f = .ok plan) :
    plan.field ∈ FIELDS .fatos ∧ plan.field ∈ NUMERIC_FIELDS .fatos ∧
    (∀ x ∈ plan.mexpr.fieldsUsed, x ∈ FIELDS .fatos) ∧
    (∀ x ∈ qkeys plan.q, x ∈ FIELDS .fatos) := by
  unfold timeseries_plan at h
  cases hvf : validate_field .fatos fl with
  | error e => rw [hvf, exbind_err] at h; cases h
  | ok u =>
    cases u
    rw [hvf, exbind_ok] at h
    split at h
    · cases h
    · rename_i hnum
      cases hpf : parse_filters .fatos f with
      | error e => rw [hpf, exbind_err] at h; cases h
      | ok q =>
        rw [hpf, exbind_ok] at h
        cases hme : metric_expr m (some fl) with
        | error e => rw [hme, exbind_err] at h; cases h
        | ok me =>
          rw [hme, exbind_ok] at h
          injection h with h2
          subst h2
          refine ⟨validate_field_mem hvf, not_not.mp hnum, ?_, parse_filters_ok_keys hpf⟩
          intro x hx
          rcases metric_expr_ok_fields hme with h3 | ⟨fl2, hfl2, _, h3⟩
          · rw [h3] at hx
            cases hx
          · rw [h3] at hx
            cases hx with
            | head =>
              injection hfl2 with h4
              subst h4
              exact validate_field_mem hvf
            | tail _ hx2 => cases hx2

theorem agg_plan_bad_group {c : Collection} {gb x : String}
    (hx : x ∈ splitFieldList gb) (hbad : x ∉ FIELDS c)
    (m : Metric) (fo : Option String) (srt : Bool) (lim : Nat) (f : StdFilters) :
    statusOf (agg_plan c gb m fo srt lim f) = some 400 := by
  obtain ⟨d, hd⟩ := validate_fields_err_of_bad hx hbad
  unfold agg_plan
  rw [hd, exbind_err]
  rfl

theorem dist_plan_bad_field {c : Collection} {fl : String} (hbad : fl ∉ FIELDS c)
    (kind : DistKind) (bins tn : Nat) (f : StdFilters) :
    statusOf (dist_plan c fl kind bins tn f) = some 400 := by
  unfold dist_plan
  rw [validate_field_not_mem hbad, exbind_err]
  rfl

theorem stats_plan_bad_field {c : Collection} {fl : String} (hbad : fl ∉ FIELDS c)
    (tn : Nat) (f : StdFilters) :
    statusOf (stats_plan c fl tn f) = some 400 := by
  unfold stats_plan
  rw [validate_field_not_mem hbad, exbind_err]
  rfl

theorem timeseries_plan_bad_field {fl : String} (hbad : fl ∉ FIELDS .fatos)
    (m : Metric) (g : Granularity) (f : StdFilters) :
    statusOf (timeseries_plan m fl g f) = some 400 := by
  unfold timeseries_plan
  rw [validate_field_not_mem hbad, exbind_err]
  rfl

theorem data_plan_bad_proj {c : Collection} {s x : String} {f : StdFilters}
    {page ps : Nat} (hx : x ∈ splitFieldList s) (hbad : x ∉ FIELDS c) :
    (∀ plan, data_plan c (some s) f page ps ≠ .ok plan) ∧
    ((∀ m, parse_filters c f ≠ .error (.valueError m)) →
      statusOf (data_plan c (some s) f page ps) = some 400) := by
  by_cases hs : s = ""
  · subst hs
    rw [show splitFieldList "" = [] from rfl] at hx
    cases hx
  · have hproj : ∃ d, proj_fields c (some s) = .error (.http 400 d) := by
      obtain ⟨d, hd⟩ := validate_fields_err_of_bad hx hbad
      refine ⟨d, ?_⟩
      simp only [proj_fields]
      rw [if_pos hs, hd, exbind_err]
    obtain ⟨d, hd⟩ := hproj
    cases hpf : parse_filters c f with
    | error e =>
      constructor
      · intro plan hplan
        unfold data_plan at hplan
        rw [hpf, exbind_err] at hplan
        cases hplan
      · intro hnv
        rcases parse_filters_err hpf with ⟨d2, hd2⟩ | ⟨m2, hm2⟩
        · unfold data_plan
          rw [hpf, exbind_err, hd2]
          rfl
        · subst hm2
          exact absurd rfl (hnv m2)
    | ok q =>
      constructor
      · intro plan hplan
        unfold data_plan at hplan
        rw [hpf, exbind_ok, hd, exbind_err] at hplan
        cases hplan
      · intro _
        unfold data_plan
        rw [hpf, exbind_ok, hd, exbind_err]
        rfl

theorem row_fatos_doc_spec {tipo batch : String} {i : Nat} {r : SheetRow} {d : FatosDoc}
    (h : row_fatos_doc tipo batch i r = some d) :
    ∃ dt qt pr, accept_row r = some (dt, qt, pr) ∧
      d.id_pedido = make_id tipo dt.year dt.month i ∧ d.import_batch_id = batch := by
  unfold row_fatos_doc at h
  cases ha : accept_row r with
  | none => rw [ha] at h; cases h
  | some t =>
    obtain ⟨dt, qt, pr⟩ := t
    rw [ha] at h
    injection h with h2
    subst h2
    exact ⟨dt, qt, pr, rfl, rfl, rfl⟩

theorem row_polpa_doc_batch {tipo batch : String} {i : Nat} {r : SheetRow} {d : PolpaDoc}
    (h : row_polpa_doc tipo batch i r = some d) : d.import_batch_id = batch := by
  unfold row_polpa_doc at h
  cases ha : accept_row r with
  | none => rw [ha] at h; cases h
  | some t =>
    obtain ⟨dt, qt, pr⟩ := t
    rw [ha] at h
    injection h with h2
    subst h2
    rfl

theorem row_manteiga_doc_batch {tipo batch : String} {i : Nat} {r : SheetRow} {d : ManteigaDoc}
    (h : row_manteiga_doc tipo batch i r = some d) : d.import_batch_id = batch := by
  unfold row_manteiga_doc at h
  cases ha : accept_row r with
  | none => rw [ha] at h; cases h
  | some t =>
    obtain ⟨dt, qt, pr⟩ := t
    rw [ha] at h
    injection h with h2
    subst h2
    rfl

theorem sheet_fatos_mem {tipo batch : String} {rows : List SheetRow} {d : FatosDoc}
    (h : d ∈ sheet_fatos tipo batch rows) :
    ∃ i r, rows[i]? = some r ∧ ∃ dt qt pr, accept_row r = some (dt, qt, pr) ∧
      d.id_pedido = make_id tipo dt.year dt.month i ∧ d.import_batch_id = batch := by
  unfold sheet_fatos at h
  obtain ⟨p, hp, he⟩ := List.mem_filterMap.mp h
  obtain ⟨dt, qt, pr, ha, hid, hb⟩ := row_fatos_doc_spec he
  exact ⟨p.1, p.2, by simpa using List.mem_enum_iff_getElem?.mp hp,
    dt, qt, pr, ha, hid, hb⟩

theorem sheet_fatos_batch {tipo batch : String} {rows : List SheetRow} {d : FatosDoc}
    (h : d ∈ sheet_fatos tipo batch rows) : d.import_batch_id = batch := by
  obtain ⟨_, _, _, _, _, _, _, _, hb⟩ := sheet_fatos_mem h
  exact hb

theorem sheet_polpa_batch {tipo batch : String} {rows : List SheetRow} {d : PolpaDoc}
    (h : d ∈ sheet_polpa tipo batch rows) : d.import_batch_id = batch := by
  unfold sheet_polpa at h
  obtain ⟨p, hp, he⟩ := List.mem_filterMap.mp h
  exact row_polpa_doc_batch he

theorem sheet_manteiga_batch {tipo batch : String} {rows : List SheetRow} {d : ManteigaDoc}
    (h : d ∈ sheet_manteiga tipo batch rows) : d.import_batch_id = batch := by
  unfold sheet_manteiga at h
  obtain ⟨p, hp, he⟩ := List.mem_filterMap.mp h
  exact row_manteiga_doc_batch he

theorem sheet_docs_cases (batch : String) (sh : Sheet) :
    (∃ tipo, sheet_docs batch sh =
        (sheet_fatos tipo batch sh.rows, sheet_polpa tipo batch sh.rows, [])) ∨
    (∃ tipo, sheet_docs batch sh =
        (sheet_fatos tipo batch sh.rows, [], sheet_manteiga tipo batch sh.rows)) ∨
    sheet_docs batch sh = ([], [], []) := by
  unfold sheet_docs
  by_cases hp : strContains (strLower sh.name) "polpa" = true
  · rw [if_pos hp]
    exact Or.inl ⟨_, rfl⟩
  · rw [if_neg hp]
    by_cases hm : strContains (strLower sh.name) "manteiga" = true
    · rw [if_pos hm]
      exact Or.inr (Or.inl ⟨_, rfl⟩)
    · rw [if_neg hm]
      exact Or.inr (Or.inr rfl)

theorem wb_docs_fatos_batch {batch : String} :
    ∀ {wb : Workbook} {d : FatosDoc}, d ∈ (wb_docs batch wb).1 →
      d.import_batch_id = batch := by
  intro wb
  induction wb with
  | nil => intro d h; cases h
  | cons sh rest ih =>
    intro d h
    unfold wb_docs at h
    rw [List.mem_append] at h
    rcases h with h | h
    · rcases sheet_docs_cases batch sh with ⟨tipo, hc⟩ | ⟨tipo, hc⟩ | hc <;> rw [hc] at h
      · exact sheet_fatos_batch h
      · exact sheet_fatos_batch h
      · cases h
    · exact ih h

theorem wb_docs_polpa_batch {batch : String} :
    ∀ {wb : Workbook} {d : PolpaDoc}, d ∈ (wb_docs batch wb).2.1 →
      d.import_batch_id = batch := by
  intro wb
  induction wb with
  | nil => intro d h; cases h
  | cons sh rest ih =>
    intro d h
    unfold wb_docs at h
    rw [List.mem_append] at h
    rcases h with h | h
    · rcases sheet_docs_cases batch sh with ⟨tipo, hc⟩ | ⟨tipo, hc⟩ | hc <;> rw [hc] at h
      · exact sheet_polpa_batch h
      · cases h
      · cases h
    · exact ih h

theorem wb_docs_manteiga_batch {batch : String} :
    ∀ {wb : Workbook} {d : ManteigaDoc}, d ∈ (wb_docs batch wb).2.2 →
      d.import_batch_id = batch := by
  intro wb
  induction wb with
  | nil => intro d h; cases h
  | cons sh rest ih =>
    intro d h
    unfold wb_docs at h
    rw [List.mem_append] at h
    rcases h with h | h
    · rcases sheet_docs_cases batch sh with ⟨tipo, hc⟩ | ⟨tipo, hc⟩ | hc <;> rw [hc] at h
      · cases h
      · exact sheet_manteiga_batch h
      · cases h
    · exact ih h

theorem countP_filter_not_zero {α : Type} (p : α → Bool) (l : List α) :
    (l.filter (fun a => !(p a))).countP p = 0 := by
  rw [List.countP_eq_zero]
  intro a ha
  have h2 := (List.mem_filter.mp ha).2
  simp only [Bool.not_eq_true'] at h2
  simp [h2]

theorem revertStore_zero (b : String) (s : Store) :
    countBatchFatos (revertStore b s) b = 0 ∧
    countBatchPolpa (revertStore b s) b = 0 ∧
    countBatchManteiga (revertStore b s) b = 0 :=
  ⟨countP_filter_not_zero _ _, countP_filter_not_zero _ _, countP_filter_not_zero _ _⟩

theorem row_fatos_doc_id_indep (tipo b1 b2 : String) (i : Nat) (r : SheetRow) :
    (row_fatos_doc tipo b1 i r).map FatosDoc.id_pedido =
    (row_fatos_doc tipo b2 i r).map FatosDoc.id_pedido := by
  unfold row_fatos_doc
  cases accept_row r with
  | none => rfl
  | some t =>
    obtain ⟨dt, qt, pr⟩ := t
    rfl

theorem sheet_fatos_ids_indep (tipo b1 b2 : String) (rows : List SheetRow) :
    (sheet_fatos tipo b1 rows).map FatosDoc.id_pedido =
    (sheet_fatos tipo b2 rows).map FatosDoc.id_pedido := by
  unfold sheet_fatos
  rw [List.map_filterMap, List.map_filterMap]
  exact List.filterMap_congr (fun p _ => row_fatos_doc_id_indep tipo b1 b2 p.1 p.2)

theorem wb_docs_fatos_ids_indep (b1 b2 : String) :
    ∀ wb : Workbook,
      (wb_docs b1 wb).1.map FatosDoc.id_pedido =
      (wb_docs b2 wb).1.map FatosDoc.id_pedido := by
  intro wb
  induction wb with
  | nil => rfl
  | cons sh rest ih =>
    have hsh : (sheet_docs b1 sh).1.map FatosDoc.id_pedido =
        (sheet_docs b2 sh).1.map FatosDoc.id_pedido := by
      unfold sheet_docs
      by_cases hp : strContains (strLower sh.name) "polpa" = true
      · rw [if_pos hp, if_pos hp]
        exact sheet_fatos_ids_indep _ b1 b2 sh.rows
      · rw [if_neg hp, if_neg hp]
        by_cases hm : strContains (strLower sh.name) "manteiga" = true
        · rw [if_pos hm, if_pos hm]
          exact sheet_fatos_ids_indep _ b1 b2 sh.rows
        · rw [if_neg hm, if_neg hm]
    show ((sheet_docs b1 sh).1 ++ (wb_docs b1 rest).1).map FatosDoc.id_pedido =
        ((sheet_docs b2 sh).1 ++ (wb_docs b2 rest).1).map FatosDoc.id_pedido
    rw [List.map_append, List.map_append, ih, hsh]

theorem upload_excel_fatos (wb : Workbook) (b : String) (s : Store) :
    ((upload_excel wb b s).1).fatos = s.fatos ++ (wb_docs b wb).1 := rfl

/-! ## Claim theorems -/

/-- C1: importing a workbook under batch id `b` and then reverting `b`
succeeds and leaves zero records carrying `import_batch_id = b` in all three
collections; every record the import inserts is stamped with `b`; and
reverting any non-blank batch id that tags no stored record succeeds,
reporting zero deletions per collection instead of an error. -/
theorem C1_import_revert_roundtrip :
    (∀ (wb : Workbook) (b : String) (s : Store), pyStrip b ≠ "" →
      ∃ cf cp cm, revert_import b (upload_excel wb b s).1 =
          .ok (revertStore b (upload_excel wb b s).1, cf, cp, cm) ∧
        countBatchFatos (revertStore b (upload_excel wb b s).1) b = 0 ∧
        countBatchPolpa (revertStore b (upload_excel wb b s).1) b = 0 ∧
        countBatchManteiga (revertStore b (upload_excel wb b s).1) b = 0) ∧
    (∀ (wb : Workbook) (b : String),
      (∀ d ∈ (wb_docs b wb).1, d.import_batch_id = b) ∧
      (∀ d ∈ (wb_docs b wb).2.1, d.import_batch_id = b) ∧
      (∀ d ∈ (wb_docs b wb).2.2, d.import_batch_id = b)) ∧
    (∀ (b : String) (s : Store), pyStrip b ≠ "" →
      countBatchFatos s b = 0 → countBatchPolpa s b = 0 → countBatchManteiga s b = 0 →
      revert_import b s = .ok (s, 0, 0, 0)) := by
  refine ⟨?_, ?_, ?_⟩
  · intro wb b s hb
    refine ⟨(upload_excel wb b s).1.fatos.length -
        (revertStore b (upload_excel wb b s).1).fatos.length,
      (upload_excel wb b s).1.polpa.length -
        (revertStore b (upload_excel wb b s).1).polpa.length,
      (upload_excel wb b s).1.manteiga.length -
        (revertStore b (upload_excel wb b s).1).manteiga.length,
      ?_, (revertStore_zero b _).1, (revertStore_zero b _).2.1,
      (revertStore_zero b _).2.2⟩
    unfold revert_import
    rw [if_neg hb]
  · intro wb b
    exact ⟨fun d hd => wb_docs_fatos_batch hd, fun d hd => wb_docs_polpa_batch hd,
      fun d hd => wb_docs_manteiga_batch hd⟩
  · intro b s hb hf hp hm
    have hf1 : s.fatos.countP (fun d => d.import_batch_id == b) = 0 := hf
    have hp1 : s.polpa.countP (fun d => d.import_batch_id == b) = 0 := hp
    have hm1 : s.manteiga.countP (fun d => d.import_batch_id == b) = 0 := hm
    have hf2 : s.fatos.filter (fun d => !(d.import_batch_id == b)) = s.fatos := by
      rw [List.filter_eq_self]
      intro a ha
      have h3 := List.countP_eq_zero.mp hf1 a ha
      simp only [Bool.not_eq_true] at h3 ⊢
      simp [h3]
    have hp2 : s.polpa.filter (fun d => !(d.import_batch_id == b)) = s.polpa := by
      rw [List.filter_eq_self]
      intro a ha
      have h3 := List.countP_eq_zero.mp hp1 a ha
      simp only [Bool.not_eq_true] at h3 ⊢
      simp [h3]
    have hm2 : s.manteiga.filter (fun d => !(d.import_batch_id == b)) = s.manteiga := by
      rw [List.filter_eq_self]
      intro a ha
      have h3 := List.countP_eq_zero.mp hm1 a ha
      simp only [Bool.not_eq_true] at h3 ⊢
      simp [h3]
    unfold revert_import revertStore
    rw [if_neg hb, hf2, hp2, hm2]
    simp

/-- C1 witness: a concrete one-row pulp import under batch `batch-1`, then
reverted, leaves zero tagged records; reverting the unknown batch id
`unknown-batch` on an empty store returns zero deletions. -/
theorem C1_witness :
    (∃ cf cp cm, revert_import "batch-1" (upload_excel exampleWb "batch-1" emptyStore).1 =
        .ok (revertStore "batch-1" (upload_excel exampleWb "batch-1" emptyStore).1, cf, cp, cm) ∧
      countBatchFatos (revertStore "batch-1" (upload_excel exampleWb "batch-1" emptyStore).1)
        "batch-1" = 0 ∧
      countBatchPolpa (revertStore "batch-1" (upload_excel exampleWb "batch-1" emptyStore).1)
        "batch-1" = 0 ∧
      countBatchManteiga (revertStore "batch-1" (upload_excel exampleWb "batch-1" emptyStore).1)
        "batch-1" = 0) ∧
    revert_import "unknown-batch" emptyStore = .ok (emptyStore, 0, 0, 0) :=
  ⟨C1_import_revert_roundtrip.1 exampleWb "batch-1" emptyStore (by decide),
   C1_import_revert_roundtrip.2.2 "unknown-batch" emptyStore (by decide) rfl rfl rfl⟩

/-- C2 counterexample: a request naming the non-whitelisted projection field
`hacker_field` that also carries the malformed date `not-a-date` fails with
HTTP 500 (the uncaught date `ValueError` preempts the field validation), not
with a client error as the claim states. -/
theorem C2_counterexample :
    "hacker_field" ∈ splitFieldList "hacker_field" ∧
    "hacker_field" ∉ FIELDS Collection.fatos ∧
    statusOf (data_plan .fatos (some "hacker_field")
      { date_from := some "not-a-date" } 1 100) = some 500 := by
  exact ⟨by decide, by decide, rfl⟩

/-- C2 (amended): every field name in a successfully built pipeline —
projection fields, group-by fields, metric fields, dist/stats/timeseries
fields and every predicate key — is whitelisted for its dataset, so no
unvalidated field ever reaches the aggregation engine; a request naming a
non-whitelisted field never yields a pipeline, failing with HTTP 400 for
the group-by/dist/stats/timeseries field parameters, and for the projection
list and extra-filter keys failing with HTTP 400 unless a malformed date in
the same request preempts with an uncaught parse error (HTTP 500). -/
theorem C2_whitelist_enforced :
    (∀ (c : Collection) (fields : Option String) (f : StdFilters) (page ps : Nat)
        (plan : DataPlan), data_plan c fields f page ps = .ok plan →
        (∀ x ∈ plan.projection, x ∈ FIELDS c) ∧ (∀ x ∈ qkeys plan.q, x ∈ FIELDS c)) ∧
    (∀ (c : Collection) (gb : String) (m : Metric) (fo : Option String) (srt : Bool)
        (lim : Nat) (f : StdFilters) (plan : AggPlan),
        agg_plan c gb m fo srt lim f = .ok plan →
        (∀ x ∈ plan.group_by, x ∈ FIELDS c) ∧
        (∀ x ∈ plan.mexpr.fieldsUsed, x ∈ FIELDS c) ∧
        (∀ x ∈ qkeys plan.q, x ∈ FIELDS c)) ∧
    (∀ (c : Collection) (fl : String) (kind : DistKind) (bins tn : Nat) (f : StdFilters)
        (plan : DistPlan), dist_plan c fl kind bins tn f = .ok plan →
        plan.field ∈ FIELDS c ∧ (∀ x ∈ qkeys plan.q, x ∈ FIELDS c)) ∧
    (∀ (c : Collection) (fl : String) (tn : Nat) (f : StdFilters) (plan : StatsPlan),
        stats_plan c fl tn f = .ok plan →
        plan.field ∈ FIELDS c ∧ (∀ x ∈ qkeys plan.q, x ∈ FIELDS c)) ∧
    (∀ (m : Metric) (fl : String) (g : Granularity) (f : StdFilters) (plan : TsPlan),
        timeseries_plan m fl g f = .ok plan →
        plan.field ∈ FIELDS .fatos ∧ plan.field ∈ NUMERIC_FIELDS .fatos ∧
        (∀ x ∈ plan.mexpr.fieldsUsed, x ∈ FIELDS .fatos) ∧
        (∀ x ∈ qkeys plan.q, x ∈ FIELDS .fatos)) ∧
    (∀ (c : Collection) (gb x : String), x ∈ splitFieldList gb → x ∉ FIELDS c →
        ∀ (m : Metric) (fo : Option String) (srt : Bool) (lim : Nat) (f : StdFilters),
          statusOf (agg_plan c gb m fo srt lim f) = some 400) ∧
    (∀ (c : Collection) (fl : String), fl ∉ FIELDS c →
        ∀ (kind : DistKind) (bins tn : Nat) (f : StdFilters),
          statusOf (dist_plan c fl kind bins tn f) = some 400) ∧
    (∀ (c : Collection) (fl : String), fl ∉ FIELDS c →
        ∀ (tn : Nat) (f : StdFilters), statusOf (stats_plan c fl tn f) = some 400) ∧
    (∀ fl : String, fl ∉ FIELDS .fatos →
        ∀ (m : Metric) (g : Granularity) (f : StdFilters),
          statusOf (timeseries_plan m fl g f) = some 400) ∧
    (∀ (c : Collection) (s x : String) (f : StdFilters) (page ps : Nat),
        x ∈ splitFieldList s → x ∉ FIELDS c →
        (∀ plan, data_plan c (some s) f page ps ≠ .ok plan) ∧
        ((∀ m, parse_filters c f ≠ .error (.valueError m)) →
          statusOf (data_plan c (some s) f page ps) = some 400)) ∧
    (∀ (c : Collection) (k v : String) (q : Query), k ∉ FIELDS c →
        applyPair c k v q =
          .error (.http 400 "field invalido para a colecao. Permitidos: whitelist")) := by
  refine ⟨?_, ?_, ?_, ?_, ?_, ?_, ?_, ?_, ?_, ?_, ?_⟩
  · intro c fields f page ps plan h
    exact data_plan_ok h
  · intro c gb m fo srt lim f plan h
    exact agg_plan_ok h
  · intro c fl kind bins tn f plan h
    exact dist_plan_ok h
  · intro c fl tn f plan h
    exact stats_plan_ok h
  · intro m fl g f plan h
    exact timeseries_plan_ok h
  · intro c gb x hx hbad m fo srt lim f
    exact agg_plan_bad_group hx hbad m fo srt lim f
  · intro c fl hbad kind bins tn f
    exact dist_plan_bad_field hbad kind bins tn f
  · intro c fl hbad tn f
    exact stats_plan_bad_field hbad tn f
  · intro fl hbad m g f
    exact timeseries_plan_bad_field hbad m g f
  · intro c s x f page ps hx hbad
    exact data_plan_bad_proj hx hbad
  · intro c k v q hk
    exact applyPair_bad hk

/-- C2 witness: the non-whitelisted group-by field `evil` is rejected with
HTTP 400 by the grouped aggregate, and the field `canal` (whitelisted only
for `fatos`) is rejected with HTTP 400 by the distribution endpoint on the
`polpa` dataset. -/
theorem C2_witness :
    statusOf (agg_plan .fatos "evil" .count none false 50 {}) = some 400 ∧
    statusOf (dist_plan .polpa "canal" .auto 20 30 {}) = some 400 :=
  ⟨C2_whitelist_enforced.2.2.2.2.2.1 .fatos "evil" "evil" (by decide) (by decide)
      .count none false 50 {},
   C2_whitelist_enforced.2.2.2.2.2.2.1 .polpa "canal" (by decide) .auto 20 30 {}⟩

/-- C3 (code bug): a malformed `date_from` value does not produce an HTTP
400 client error — `_parse_filters` calls `datetime.fromisoformat` bare, so
the `ValueError` escapes the handler and FastAPI answers HTTP 500, although
the spec requires a client error; the malformed value is not silently
dropped either. The error classification shows a date parse failure is the
only way a filter-accepting endpoint fails with a non-400 status. -/
theorem C3_malformed_date_is_500 :
    parse_filters .fatos { date_from := some "not-a-date" } =
      .error (.valueError "Invalid isoformat string: not-a-date") ∧
    statusOf (parse_filters .fatos { date_from := some "not-a-date" }) = some 500 ∧
    (∀ (c : Collection) (f : StdFilters) (e : PyErr), parse_filters c f = .error e →
      responseStatus e = 400 ∨ ∃ m, e = .valueError m) := by
  refine ⟨rfl, rfl, ?_⟩
  intro c f e h
  rcases parse_filters_err h with ⟨d, hd⟩ | hm
  · subst hd
    exact Or.inl rfl
  · exact Or.inr hm

/-- C3 witness: instantiates the error classification at a request whose
`extra_filters` names a non-whitelisted key, which is an HTTP 400. -/
theorem C3_witness :
    responseStatus (.http 400 "field invalido para a colecao. Permitidos: whitelist") = 400 ∨
    ∃ m, (PyErr.http 400 "field invalido para a colecao. Permitidos: whitelist") =
      .valueError m :=
  C3_malformed_date_is_500.2.2 .fatos { extra_filters := some "hacker=1" }
    (.http 400 "field invalido para a colecao. Permitidos: whitelist") rfl

/-- C4: an extra-filter pair with a non-whitelisted key fails the whole
request with HTTP 400; a whitelisted key stores the coerced value, where a
numeric-field value containing a dot is coerced via `float` and otherwise
via `int`, keeping the raw string on coercion failure; concretely,
`quantidade_kg=3.5` stores the float `3.5` (= 7/2) and `quantidade_kg=abc`
stores the string `"abc"`, accepted rather than rejected. -/
theorem C4_extra_filter_coercion :
    (∀ (c : Collection) (k v : String) (q : Query), k ∉ FIELDS c →
        applyPair c k v q =
          .error (.http 400 "field invalido para a colecao. Permitidos: whitelist")) ∧
    (∀ (c : Collection) (k v : String) (q : Query), k ∈ FIELDS c →
        applyPair c k v q = .ok (qset q k (coerceVal c k v))) ∧
    (∀ (c : Collection) (k v : String), k ∈ NUMERIC_FIELDS c → containsChar v '.' = true →
        (∀ qv, pyFloat v = some qv → coerceVal c k v = .vfloat qv) ∧
        (pyFloat v = none → coerceVal c k v = .vstr v)) ∧
    (∀ (c : Collection) (k v : String), k ∈ NUMERIC_FIELDS c → containsChar v '.' = false →
        (∀ n, pyInt v = some n → coerceVal c k v = .vint n) ∧
        (pyInt v = none → coerceVal c k v = .vstr v)) ∧
    (∃ qv, parse_filters .fatos { extra_filters := some "quantidade_kg=3.5" } =
        .ok [("quantidade_kg", .vfloat qv)] ∧ qv = 7 / 2) ∧
    parse_filters .fatos { extra_filters := some "quantidade_kg=abc" } =
      .ok [("quantidade_kg", .vstr "abc")] ∧
    statusOf (parse_filters .fatos { extra_filters := some "hacker=1" }) = some 400 := by
  refine ⟨?_, ?_, ?_, ?_, ?_, rfl, rfl⟩
  · intro c k v q hk
    exact applyPair_bad hk
  · intro c k v q hk
    exact applyPair_of_mem v q hk
  · intro c k v hk hdot
    constructor
    · intro qv hqv
      simp [coerceVal, hk, hdot, hqv]
    · intro hqv
      simp [coerceVal, hk, hdot, hqv]
  · intro c k v hk hdot
    constructor
    · intro n hn
      simp [coerceVal, hk, hdot, hn]
    · intro hn
      simp [coerceVal, hk, hdot, hn]
  · refine ⟨_, rfl, ?_⟩
    have h3 : ('3' : Char).toNat = 51 := rfl
    have h5 : ('5' : Char).toNat = 53 := rfl
    norm_num [digitsToNat, digitVal, h3, h5]

/-- C4 witness: a non-whitelisted key is rejected with 400, and for the
numeric field `quantidade_kg` the undotted unparseable value `abc` keeps
the raw string. -/
theorem C4_witness :
    applyPair .fatos "evil" "1" [] =
      .error (.http 400 "field invalido para a colecao. Permitidos: whitelist") ∧
    coerceVal .fatos "quantidade_kg" "abc" = .vstr "abc" :=
  ⟨C4_extra_filter_coercion.1 .fatos "evil" "1" [] (by decide),
   (C4_extra_filter_coercion.2.2.2.1 .fatos "quantidade_kg" "abc"
      (by decide) (by decide)).2 rfl⟩

/-- C5: the metric expression builder with `count` never raises the
missing-field error whatever the field argument is, and every other metric
fails with HTTP 400 when the field is missing. -/
theorem C5_count_field_policy :
    (∀ fo : Option String, metric_expr .count fo = .ok .sumOne) ∧
    (∀ m : Metric, m ≠ .count →
        metric_expr m none = .error (.http 400 "metric diferente de count exige field")) := by
  constructor
  · intro fo
    rfl
  · intro m hm
    unfold metric_expr
    rw [if_neg hm]

/-- C5 witness: `count` with no field succeeds; `sum` with no field fails
with the missing-field 400. -/
theorem C5_witness :
    metric_expr .count none = .ok .sumOne ∧
    metric_expr .sum none = .error (.http 400 "metric diferente de count exige field") :=
  ⟨C5_count_field_policy.1 none, C5_count_field_policy.2 .sum (by decide)⟩

/-- C6: each KPI delta of the overview endpoint equals
`round((current - previous) / previous * 100, 2)` whenever the prior value
is present and nonzero (a missing current value counts as zero), and is
null when the prior value is zero or absent; revenue 1000 against previous
500 yields a delta of 100. -/
theorem C6_overview_delta :
    (∀ (cur : Option Rat) (p : Rat), p ≠ 0 →
        var_pct cur (some p) = some (pyRound2 ((cur.getD 0 - p) / p * 100))) ∧
    (∀ cur : Option Rat, var_pct cur (some 0) = none) ∧
    (∀ cur : Option Rat, var_pct cur none = none) ∧
    (∀ current prev : KPIs,
        (variacao_pct current prev).faturamento =
          var_pct current.faturamento_total prev.faturamento_total ∧
        (variacao_pct current prev).volume_kg =
          var_pct current.volume_kg prev.volume_kg ∧
        (variacao_pct current prev).num_pedidos =
          var_pct current.num_pedidos prev.num_pedidos ∧
        (variacao_pct current prev).ticket_medio =
          var_pct current.ticket_medio prev.ticket_medio ∧
        (variacao_pct current prev).nps_medio =
          var_pct current.nps_medio prev.nps_medio) ∧
    (∃ qv, (variacao_pct { faturamento_total := some 1000 }
        { faturamento_total := some 500 }).faturamento = some qv ∧ qv = 100) ∧
    (variacao_pct { faturamento_total := some 1000 }
        { faturamento_total := some 0 }).faturamento = none ∧
    (variacao_pct { faturamento_total := some 1000 } {}).faturamento = none := by
  refine ⟨?_, ?_, ?_, ?_, ?_, rfl, rfl⟩
  · intro cur p hp
    simp only [var_pct]
    rw [if_neg hp]
  · intro cur
    simp [var_pct]
  · intro cur
    rfl
  · intro current prev
    exact ⟨rfl, rfl, rfl, rfl, rfl⟩
  · refine ⟨_, rfl, ?_⟩
    norm_num [pyRound2, roundHalfEven, Rat.floor_def']

/-- C6 witness: the delta formula applied at current 1000 and previous 500. -/
theorem C6_witness :
    var_pct (some 1000) (some 500) =
      some (pyRound2 ((Option.getD (some 1000) 0 - 500) / 500 * 100)) :=
  C6_overview_delta.1 (some 1000) 500 (by decide)

/-- C7: every accepted spreadsheet row yields an order identifier
`{tipo}_{year}-{month:02d}_{offset}` where the offset is the row's physical
position below the header (the `enum` index), the identifier does not depend
on the batch id, and importing the same workbook twice without reverting
appends a second copy of exactly the same identifiers, so each imported
identifier occurs at least twice in the store. -/
theorem C7_identifier_synthesis :
    (∀ (tipo batch : String) (rows : List SheetRow) (d : FatosDoc),
        d ∈ sheet_fatos tipo batch rows →
        ∃ i r, rows[i]? = some r ∧ ∃ dt qt pr, accept_row r = some (dt, qt, pr) ∧
          d.id_pedido = make_id tipo dt.year dt.month i ∧ d.import_batch_id = batch) ∧
    (∀ (b1 b2 : String) (wb : Workbook),
        (wb_docs b1 wb).1.map FatosDoc.id_pedido =
        (wb_docs b2 wb).1.map FatosDoc.id_pedido) ∧
    (∀ (wb : Workbook) (b1 b2 : String) (s : Store),
        ((upload_excel wb b2 (upload_excel wb b1 s).1).1).fatos.map FatosDoc.id_pedido =
          s.fatos.map FatosDoc.id_pedido ++
          (wb_docs b1 wb).1.map FatosDoc.id_pedido ++
          (wb_docs b1 wb).1.map FatosDoc.id_pedido) ∧
    (∀ (wb : Workbook) (b1 b2 : String) (s : Store) (x : String),
        x ∈ (wb_docs b1 wb).1.map FatosDoc.id_pedido →
        2 ≤ (((upload_excel wb b2 (upload_excel wb b1 s).1).1).fatos.map
          FatosDoc.id_pedido).count x) := by
  have happend : ∀ (wb : Workbook) (b1 b2 : String) (s : Store),
      ((upload_excel wb b2 (upload_excel wb b1 s).1).1).fatos.map FatosDoc.id_pedido =
        s.fatos.map FatosDoc.id_pedido ++
        (wb_docs b1 wb).1.map FatosDoc.id_pedido ++
        (wb_docs b1 wb).1.map FatosDoc.id_pedido := by
    intro wb b1 b2 s
    rw [upload_excel_fatos, upload_excel_fatos]
    rw [List.map_append, List.map_append]
    rw [wb_docs_fatos_ids_indep b2 b1 wb]
  refine ⟨?_, ?_, happend, ?_⟩
  · intro tipo batch rows d hd
    exact sheet_fatos_mem hd
  · intro b1 b2 wb
    exact wb_docs_fatos_ids_indep b1 b2 wb
  · intro wb b1 b2 s x hx
    rw [happend wb b1 b2 s]
    rw [List.count_append, List.count_append]
    have h1 : 0 < ((wb_docs b1 wb).1.map FatosDoc.id_pedido).count x :=
      List.count_pos_iff.mpr hx
    omega


/-- C7 witness: the single accepted row of the example workbook carries the
identifier `Polpa congelada_2025-07_0` at offset 0, and after importing the
same workbook twice that identifier occurs at least twice in the store. -/
theorem C7_witness :
    (∃ i r, [exampleRow][i]? = some r ∧ ∃ dt qt pr, accept_row r = some (dt, qt, pr) ∧
        ("Polpa congelada_2025-07_0" : String) = make_id "Polpa congelada" dt.year dt.month i ∧
        ("b1" : String) = "b1") ∧
    2 ≤ (((upload_excel exampleWb "b2" (upload_excel exampleWb "b1" emptyStore).1).1).fatos.map
        FatosDoc.id_pedido).count "Polpa congelada_2025-07_0" := by
  constructor
  · exact C7_identifier_synthesis.1 "Polpa congelada" "b1" [exampleRow]
      { id_pedido := "Polpa congelada_2025-07_0"
        data_pedido := { year := 2025, month := 7, day := 1 }
        tipo_produto := "Polpa congelada"
        mes_do_ano := "Julho"
        mes_do_ano_num := 7
        canal := none
        regiao_destino := none
        cliente_segmento := none
        quantidade_kg := some 10
        preco_unitario_brl_kg := some 5
        nps_0a10 := none
        import_batch_id := "b1" } (by decide)
  · exact C7_identifier_synthesis.2.2.2 exampleWb "b1" "b2" emptyStore
      "Polpa congelada_2025-07_0" (by decide)

/-- C8: all four authentication failure modes — no token, a token failing
signature/format verification, an expired token, and a valid token whose
subject user no longer exists — produce an HTTP 401, and every outcome of
the dependency is either a user or an HTTP 401, never another error
class. -/
theorem C8_auth_uniform_401 :
    (∀ us : List UserDoc,
        get_current_user us none = .error (.http 401 "Token nao informado")) ∧
    (∀ (us : List UserDoc) (t : Jwt), t.wellSigned = false ∨ t.expired = true →
        get_current_user us (some t) = .error (.http 401 "Token invalido ou expirado")) ∧
    (∀ (us : List UserDoc) (t : Jwt), t.wellSigned = true → t.expired = false →
        t.payload.sub = none →
        get_current_user us (some t) = .error (.http 401 "Token invalido")) ∧
    (∀ (us : List UserDoc) (t : Jwt) (name : String), t.wellSigned = true →
        t.expired = false → t.payload.sub = some name → name ≠ "" →
        users_find us name = none →
        get_current_user us (some t) = .error (.http 401 "Usuario nao encontrado")) ∧
    (∀ (us : List UserDoc) (cred : Option Jwt),
        (∃ u, get_current_user us cred = .ok u) ∨
        (∃ d, get_current_user us cred = .error (.http 401 d))) := by
  refine ⟨?_, ?_, ?_, ?_, ?_⟩
  · intro us
    rfl
  · intro us t h
    rcases h with hw | he
    · simp [get_current_user, decode_access_token, hw]
    · simp [get_current_user, decode_access_token, he]
  · intro us t hw he hs
    simp [get_current_user, decode_access_token, hw, he, hs]
  · intro us t name hw he hs hne hu
    simp [get_current_user, decode_access_token, hw, he, hs, hne, hu]
  · intro us cred
    cases cred with
    | none => exact Or.inr ⟨"Token nao informado", rfl⟩
    | some t =>
      cases hd : decode_access_token t with
      | none =>
        exact Or.inr ⟨"Token invalido ou expirado", by simp [get_current_user, hd]⟩
      | some payload =>
        cases hs : payload.sub with
        | none => exact Or.inr ⟨"Token invalido", by simp [get_current_user, hd, hs]⟩
        | some name =>
          by_cases hne : name = ""
          · exact Or.inr ⟨"Token invalido", by simp [get_current_user, hd, hs, hne]⟩
          · cases hu : users_find us name with
            | none =>
              exact Or.inr ⟨"Usuario nao encontrado",
                by simp [get_current_user, hd, hs, hne, hu]⟩
            | some u =>
              exact Or.inl ⟨u, by simp [get_current_user, hd, hs, hne, hu]⟩

/-- C8 witness: a well-signed unexpired token for the deleted user `alice`
is rejected with 401, as is a request with no token. -/
theorem C8_witness :
    get_current_user [] (some (Jwt.mk true false (TokenPayload.mk (some "alice")))) =
      .error (.http 401 "Usuario nao encontrado") ∧
    get_current_user [] none = .error (.http 401 "Token nao informado") :=
  ⟨C8_auth_uniform_401.2.2.2.1 [] (Jwt.mk true false (TokenPayload.mk (some "alice")))
      "alice" rfl rfl rfl (by decide) rfl,
   C8_auth_uniform_401.1 []⟩

/-- C9 counterexample: `detalhe_pedido` (the pedidos-route single-order join
lookup cited by the claim) answers an unknown order id with an HTTP 200
success body carrying an error message and no order, not with the
taxonomy's not-found error. -/
theorem C9_counterexample :
    find_pedido emptyStore "PED-404" = none ∧
    detalhe_pedido emptyStore "PED-404" = .erro "Pedido nao encontrado" :=
  ⟨rfl, rfl⟩

/-- C9 (amended): for an order id matching no stored order, the analytics
single-order join lookup raises HTTP 404, while the pedidos detail lookup
instead returns a success body whose payload is an error message and no
order. -/
theorem C9_unknown_order :
    (∀ (s : Store) (id : String), find_pedido s id = none →
        join_route s id = .error (.http 404 "Pedido nao encontrado")) ∧
    (∀ (s : Store) (id : String), find_pedido s id = none →
        detalhe_pedido s id = .erro "Pedido nao encontrado") := by
  constructor
  · intro s id h
    unfold join_route
    rw [h]
  · intro s id h
    unfold detalhe_pedido
    rw [h]

/-- C9 witness: both lookups evaluated at an unknown id on the empty
store. -/
theorem C9_witness :
    join_route emptyStore "PED-1" = .error (.http 404 "Pedido nao encontrado") ∧
    detalhe_pedido emptyStore "PED-1" = .erro "Pedido nao encontrado" :=
  ⟨C9_unknown_order.1 emptyStore "PED-1" rfl, C9_unknown_order.2 emptyStore "PED-1" rfl⟩

/-- C10: reverting with an empty or whitespace-only batch id fails with
HTTP 400, while any non-blank batch id (matching records or not) makes the
revert succeed. -/
theorem C10_blank_batch_rejected :
    (∀ (s : Store) (b : String), pyStrip b = "" →
        revert_import b s = .error (.http 400 "batch_id e obrigatorio.")) ∧
    (∀ (s : Store) (b : String), pyStrip b ≠ "" →
        ∃ out, revert_import b s = .ok out) := by
  constructor
  · intro s b hb
    unfold revert_import
    rw [if_pos hb]
  · intro s b hb
    refine ⟨(revertStore b s, s.fatos.length - (revertStore b s).fatos.length,
      s.polpa.length - (revertStore b s).polpa.length,
      s.manteiga.length - (revertStore b s).manteiga.length), ?_⟩
    unfold revert_import
    rw [if_neg hb]

/-- C10 witness: a whitespace-only batch id is rejected with 400; the
unknown but non-blank id `x` succeeds. -/
theorem C10_witness :
    revert_import "   " emptyStore = .error (.http 400 "batch_id e obrigatorio.") ∧
    ∃ out, revert_import "x" emptyStore = .ok out :=
  ⟨C10_blank_batch_rejected.1 emptyStore "   " (by decide),
   C10_blank_batch_rejected.2 emptyStore "x" (by decide)⟩

/-- C1 counterexample: the whitespace-only batch id `"   "` is non-empty
and tags no stored record, yet the revert operation raises HTTP 400 instead
of succeeding with zero deletions. -/
theorem C1_counterexample :
    ("   " : String) ≠ "" ∧
    countBatchFatos emptyStore "   " = 0 ∧
    countBatchPolpa emptyStore "   " = 0 ∧
    countBatchManteiga emptyStore "   " = 0 ∧
    revert_import "   " emptyStore = .error (.http 400 "batch_id e obrigatorio.") :=
  ⟨by decide, rfl, rfl, rfl, rfl⟩

/-- C8 counterexample: two authentication failure modes are distinguished
to the caller — the missing-token and undecodable-token responses carry
different detail strings, so a caller can tell which check failed,
contradicting the claim's "not distinguished to the caller". -/
theorem C8_counterexample :
    get_current_user [] none = .error (.http 401 "Token nao informado") ∧
    get_current_user [] (some (Jwt.mk false false (TokenPayload.mk none))) =
      .error (.http 401 "Token invalido ou expirado") ∧
    (PyErr.http 401 "Token nao informado") ≠ (PyErr.http 401 "Token invalido ou expirado") :=
  ⟨rfl, rfl, by decide⟩
